import Mathlib

/-!
Shallow embedding of the ConsultX message-classification and
session-aggregation pipeline (`backend/analysismodel.py`,
`backend/session_tracking.py`), together with theorems checking the
natural-language specification against it.

Python floats are modelled as rationals (`ℚ`); `round(x, 3)` is modelled by
`round3`, which agrees with Python except on exact half-thousandth ties
(Python rounds those half-to-even), a boundary no statement here exercises.
Python sets of fixed keywords are modelled as lists in source order; every
observable result derived from them is passed through `pySortedSet`
(Python's `sorted(set(...))`), which makes the iteration order irrelevant.
-/

/-! ## Enumerations (`backend/models.py`, modelled from the spec) -/

/-- Modelled from the spec: ordered risk enum OK < CAUTION < HIGH < CRISIS
(`models.py` is not part of the sources; the enum and its member order are
fixed by §3 of the spec and by the `_RISK_SEVERITY` tables in the sources). -/
inductive RiskTier
  | OK
  | CAUTION
  | HIGH
  | CRISIS
deriving DecidableEq, Repr

/-- Declaration-order listing of the enum, as Python's `for tier in RiskTier`. -/
def RiskTier.all : List RiskTier := [.OK, .CAUTION, .HIGH, .CRISIS]

/-- Modelled from the spec: the enum's string `value`, as used for dict keys
and notes (lower-case labels fixed by `_tier_from_label`). -/
def RiskTier.value : RiskTier → String
  | .OK => "ok"
  | .CAUTION => "caution"
  | .HIGH => "high"
  | .CRISIS => "crisis"

/-- `_RISK_SEVERITY` of `analysismodel.py` (same table as `RISK_SEVERITY`
in `session_tracking.py`). -/
def riskSeverity : RiskTier → Nat
  | .OK => 0
  | .CAUTION => 1
  | .HIGH => 2
  | .CRISIS => 3

/-- Modelled from the spec: sentiment band enum (§3). -/
inductive SentimentBand
  | POSITIVE
  | NEUTRAL
  | NEGATIVE
deriving DecidableEq, Repr

/-- Declaration-order listing, as Python's `for band in SentimentBand`. -/
def SentimentBand.all : List SentimentBand := [.POSITIVE, .NEUTRAL, .NEGATIVE]

/-- Modelled from the spec: the band's string `value`. -/
def SentimentBand.value : SentimentBand → String
  | .POSITIVE => "positive"
  | .NEUTRAL => "neutral"
  | .NEGATIVE => "negative"

/-- Modelled from the spec: message sender enum (§3). -/
inductive SenderRole
  | USER
  | ASSISTANT
deriving DecidableEq, Repr

/-- Modelled from the spec: session status enum, ACTIVE → ENDED (§4.3). -/
inductive SessionStatus
  | ACTIVE
  | ENDED
deriving DecidableEq, Repr

/-! ## String and numeric helpers -/

/-- The apostrophe character (permitted inside word tokens by `_WORD_RE`). -/
def apostrophe : Char := Char.ofNat 39

/-- A character matched by `_WORD_RE = [a-zA-Z']+`. -/
def isWordChar (c : Char) : Bool := c.isAlpha || c = apostrophe

/-- Accumulator pass of `reFindall`: `cur` is the reversed current run of
word characters. -/
def findallAux : List Char → List Char → List String
  | [], cur => if cur.isEmpty then [] else [⟨cur.reverse⟩]
  | c :: rest, cur =>
    if isWordChar c then findallAux rest (c :: cur)
    else if cur.isEmpty then findallAux rest []
    else ⟨cur.reverse⟩ :: findallAux rest []

/-- `_WORD_RE.findall(text)`: maximal runs of `[a-zA-Z']`. -/
def reFindall (text : String) : List String := findallAux text.data []

/-- Python's `str.lower` restricted to the ASCII texts this pipeline sees. -/
def lowerStr (s : String) : String := ⟨s.data.map Char.toLower⟩

/-- Python's `str.strip()`. -/
def strip (s : String) : String :=
  ⟨((s.data.dropWhile Char.isWhitespace).reverse.dropWhile Char.isWhitespace).reverse⟩

/-- `needle` occurs at the start of `hay` (helper for substring search). -/
def leadsWith : List Char → List Char → Bool
  | [], _ => true
  | _ :: _, [] => false
  | a :: as, b :: bs => a = b && leadsWith as bs

/-- `needle` occurs somewhere in `hay`. -/
def containsSub (needle : List Char) : List Char → Bool
  | [] => leadsWith needle []
  | c :: rest => leadsWith needle (c :: rest) || containsSub needle rest

/-- Python's `needle in hay` for strings (substring containment). -/
def strContains (hay needle : String) : Bool := containsSub needle.data hay.data

/-- Code-point lexicographic strict order on character lists, i.e. Python's
`<` on strings. -/
def charsLt : List Char → List Char → Bool
  | [], [] => false
  | [], _ :: _ => true
  | _ :: _, [] => false
  | a :: as, b :: bs => if a = b then charsLt as bs else decide (a.toNat < b.toNat)

/-- Insert into a list sorted by Python string order. -/
def insertSorted (x : String) : List String → List String
  | [] => [x]
  | y :: ys => if charsLt x.data y.data then x :: y :: ys else y :: insertSorted x ys

/-- Insertion sort by Python string order. -/
def sortStrings : List String → List String
  | [] => []
  | x :: xs => insertSorted x (sortStrings xs)

/-- Python's `sorted(set(xs))` for strings. -/
def pySortedSet (xs : List String) : List String := sortStrings xs.eraseDups

/-- Python's `round(x, 3)` (half-thousandth ties excepted, see header). -/
def round3 (q : ℚ) : ℚ := (round (q * 1000) : ℤ) / 1000

/-! ## SentimentAnalyzer (`analysismodel.py`) -/

/-- `SentimentResult` (`models.py`, modelled from the spec §3: immutable
score / band / matched-token triple). -/
structure SentimentResult where
  score : ℚ
  band : SentimentBand
  tokens : List String
deriving DecidableEq, Repr

namespace SentimentAnalyzer

def POSITIVE_WORDS : List String :=
  ["calm", "hope", "relief", "grateful", "progress", "better", "supported",
   "proud", "strong", "encouraged", "improving", "relaxed"]

def NEGATIVE_WORDS : List String :=
  ["sad", "angry", "upset", "anxious", "stressed", "scared", "lonely",
   "hopeless", "worthless", "tired", "empty", "numb", "depressed", "afraid",
   "ashamed", "guilty", "fail", "failure", "broken", "hurt"]

def NEGATIONS : List String := ["not", "never", "no", "hardly", "barely"]

/-- One iteration of the `for idx, token in enumerate(tokens)` loop of
`SentimentAnalyzer.score` over the accumulator (signed score, match count,
matched tokens). -/
def scoreStep (tokens : List String) (acc : Int × Nat × List String)
    (idx : Nat) : Int × Nat × List String :=
  let token := tokens.getD idx ""
  if token ∈ POSITIVE_WORDS then
    let modifier : Int := if idx > 0 ∧ tokens.getD (idx - 1) "" ∈ NEGATIONS then -1 else 1
    (acc.1 + modifier, acc.2.1 + 1, acc.2.2 ++ [token])
  else if token ∈ NEGATIVE_WORDS then
    let modifier : Int := if idx > 0 ∧ tokens.getD (idx - 1) "" ∈ NEGATIONS then -1 else 1
    (acc.1 - modifier, acc.2.1 + 1, acc.2.2 ++ [token])
  else acc

/-- The full `enumerate` loop of `SentimentAnalyzer.score`. -/
def scoreLoop (tokens : List String) : Int × Nat × List String :=
  (List.range tokens.length).foldl (scoreStep tokens)
    ((0 : Int), (0 : Nat), ([] : List String))

/-- `SentimentAnalyzer.score`. -/
def score (text : String) : SentimentResult :=
  let tokens := (reFindall text).map lowerStr
  let acc := scoreLoop tokens
  let normalized : ℚ := if acc.2.1 ≠ 0 then (acc.1 : ℚ) / (acc.2.1 : ℚ) else 0
  let band :=
    if normalized > 1/10 then SentimentBand.POSITIVE
    else if normalized < -(1/10) then SentimentBand.NEGATIVE
    else SentimentBand.NEUTRAL
  { score := round3 normalized, band := band, tokens := acc.2.2 }

/-- The unit contribution (+1 positive lexicon, −1 negative lexicon, 0
otherwise) of a token, before negation handling. -/
def unitSign (token : String) : Int :=
  if token ∈ POSITIVE_WORDS then 1
  else if token ∈ NEGATIVE_WORDS then -1
  else 0

/-- The signed contribution of position `idx` to the accumulated score, as
computed by one iteration of `scoreLoop`. -/
def tokenContribution (tokens : List String) (idx : Nat) : Int :=
  let token := tokens.getD idx ""
  if token ∈ POSITIVE_WORDS then
    (if idx > 0 ∧ tokens.getD (idx - 1) "" ∈ NEGATIONS then -1 else 1)
  else if token ∈ NEGATIVE_WORDS then
    -(if idx > 0 ∧ tokens.getD (idx - 1) "" ∈ NEGATIONS then (-1 : Int) else 1)
  else 0

end SentimentAnalyzer

/-! ## RiskClassifier (`analysismodel.py`) -/

/-- `RiskAssessment` (`models.py`, modelled from the spec §3: immutable
tier / score / flagged-keywords / notes record). -/
structure RiskAssessment where
  tier : RiskTier
  score : ℚ
  flagged_keywords : List String
  notes : List String
deriving DecidableEq, Repr

/-- `_tier_from_label`: a free-form label (`none` models Python `None`, and
`""` is equally falsy), case-insensitively mapped to the enum; unrecognized
labels default to OK. -/
def tier_from_label (label : Option String) : RiskTier :=
  match label with
  | none => RiskTier.OK
  | some s =>
    if s = "" then RiskTier.OK
    else
      let normalized := lowerStr (strip s)
      if normalized = "ok" then RiskTier.OK
      else if normalized = "caution" then RiskTier.CAUTION
      else if normalized = "high" then RiskTier.HIGH
      else if normalized = "crisis" then RiskTier.CRISIS
      else RiskTier.OK

/-- `_normalize_score`: `none` models a value `float()` rejects (the
`except` branch); values above 1.0 are assumed to be on a 0–3 scale and
divided by 3; the result is clamped to [0, 1]. -/
def normalize_score (value : Option ℚ) : ℚ :=
  match value with
  | none => 0
  | some s₀ =>
    let s := if s₀ > 1 then s₀ / 3 else s₀
    max 0 (min 1 s)

/-- The `dimensions` entry of the external model's raw response: absent (or
of an ignored type), a single string, or a list whose non-string elements
(`none`) are filtered out. -/
inductive RagDims
  | absent
  | str (s : String)
  | strList (l : List (Option String))

/-- The raw `dict` returned by the external risk model, restricted to the
keys `_rag_assess` reads. `score = some q` models a value `float()`
accepts; `none` one it rejects; a missing `score` key is `some 0`
(the `.get` default). -/
structure RagRaw where
  risk_level : Option String
  tier : Option String
  score : Option ℚ
  dimensions : RagDims
  dimension : Option String
  notes : List String
  emotion : Option String

/-- The value returned by a call into the external risk-model module:
either a `dict` or something else (`not isinstance(raw, dict)`). -/
inductive RagResponse
  | dict (raw : RagRaw)
  | nonDict

/-- Python's `a or b` on two optional strings (`None` and `""` are falsy). -/
def pyOr (a b : Option String) : Option String :=
  match a with
  | none => b
  | some s => if s = "" then b else some s

/-- A registered risk adapter: a named callable; `Except.error e` models a
raised exception with text `e`, `Except.ok none` the `None` (no opinion)
return. -/
structure RiskAdapter where
  name : String
  run : String → SentimentResult → Except String (Option RiskAssessment)

/-- `RiskClassifier`: the adapter list plus the optional external
risk-model module (`none` models a module that failed to import;
`Except.error e` on a call models a raised exception, including the
missing-entry-point `RuntimeError` of `_call_rag_fn`). -/
structure RiskClassifier where
  adapters : List RiskAdapter
  ragModule : Option (String → Except String RagResponse)

namespace RiskClassifier

def CRISIS_PHRASES : List String :=
  ["kill myself", "end my life", "suicide", "take my life", "hurt myself",
   "want to die", "ending it all"]

def HIGH_KEYWORDS : List String :=
  ["cut", "self-harm", "jump", "overdose", "plan", "no reason",
   "can\x27t go on", "die"]

def CAUTION_KEYWORDS : List String :=
  ["numb", "worthless", "hopeless", "empty", "lost", "alone", "tired",
   "fail", "failure", "break", "breaking", "drowning", "spiral", "panic",
   "overwhelmed", "burnout", "grief", "insomnia"]

/-- A resource descriptor (`type`/`label`/`link` dict in the source). -/
structure Resource where
  rtype : String
  label : String
  link : String
deriving DecidableEq, Repr

def RESOURCE_MAP : List (String × Resource) :=
  [("suicide", ⟨"hotline", "988 Suicide & Crisis Lifeline", "tel:988"⟩),
   ("hurt myself", ⟨"hotline", "Crisis Text Line", "sms:741741"⟩),
   ("hopeless", ⟨"article", "Grounding exercise: 5-4-3-2-1 method",
     "https://www.healthline.com/health/grounding-techniques"⟩),
   ("lonely", ⟨"resource", "Mental Health America peer support",
     "https://mhanational.org/peers"⟩),
   ("anxious", ⟨"exercise", "Box breathing technique",
     "https://www.va.gov/WHOLEHEALTHLIBRARY/tools/box-breathing.asp"⟩),
   ("panic", ⟨"exercise", "Panic attack grounding steps",
     "https://www.verywellmind.com/stop-a-panic-attack-2584406"⟩),
   ("overwhelmed", ⟨"article", "Guided journaling prompts for overwhelm",
     "https://www.therapistaid.com/worksheets/coping-skills-anxiety.pdf"⟩),
   ("self-harm", ⟨"hotline", "Self-Injury Outreach & Support",
     "https://sioutreach.org/dont-hurt-yourself/"⟩),
   ("grief", ⟨"resource", "Grief Share support groups",
     "https://www.griefshare.org/findagroup"⟩),
   ("insomnia", ⟨"exercise", "Sleep hygiene checklist",
     "https://www.sleepfoundation.org/sleep-hygiene"⟩),
   ("burnout", ⟨"article", "Burnout recovery micro-breaks",
     "https://www.apa.org/topics/burnout/recover"⟩)]

/-- `_find_phrases`: substring hits, in table order. -/
def find_phrases (text : String) (phrases : List String) : List String :=
  phrases.filter (fun phrase => strContains text phrase)

/-- `_find_keywords`: multi-word keywords by substring, single words by
membership in the token set of `text`. -/
def find_keywords (text : String) (keywords : List String) : List String :=
  let token_set := reFindall text
  keywords.filter (fun keyword =>
    if strContains keyword " " then strContains text keyword
    else keyword ∈ token_set)

/-- `_extract_keywords`. -/
def extract_keywords (text : String) : List String :=
  let lowered := lowerStr text
  find_phrases lowered CRISIS_PHRASES
    ++ find_keywords lowered HIGH_KEYWORDS
    ++ find_keywords lowered CAUTION_KEYWORDS

/-- `_rag_assess`: the baseline call into the external risk model. Returns
the parsed assessment (or `none`) and the diagnostic notes of the failure
branches. -/
def rag_assess (ragModule : Option (String → Except String RagResponse))
    (text : String) : Option RiskAssessment × List String :=
  match ragModule with
  | none => (none, ["RAG risk module unavailable."])
  | some callFn =>
    match callFn text with
    | .error exc => (none, ["RAG risk module error: " ++ exc])
    | .ok .nonDict => (none, ["RAG risk module returned an unexpected response."])
    | .ok (.dict raw) =>
      let tier := tier_from_label (pyOr raw.risk_level raw.tier)
      let score := normalize_score raw.score
      let flagged :=
        (match raw.dimensions with
          | .absent => []
          | .str s => [s]
          | .strList l => l.filterMap id)
        ++ (match raw.dimension with
          | some d => [d]
          | none => [])
      let notes := raw.notes.filter (fun n => n ≠ "")
      let notes :=
        match raw.emotion with
        | some e =>
          if e ≠ "" ∧ ¬ notes.any (fun n => strContains n "emotion")
          then notes ++ ["emotion=" ++ e]
          else notes
        | none => notes
      (some { tier := tier, score := score, flagged_keywords := flagged,
              notes := notes }, [])

/-- `_apply_adapters`: fold the adapter ensemble over the running tier and
score, isolating failures per adapter.  Returns the final tier and score
and the flagged keywords and notes contributed by the adapters, in
invocation order. -/
def apply_adapters (text : String) (sentiment : SentimentResult) :
    List RiskAdapter → RiskTier → ℚ → RiskTier × ℚ × List String × List String
  | [], tier, scoreAcc => (tier, scoreAcc, [], [])
  | adapter :: rest, tier, scoreAcc =>
    match adapter.run text sentiment with
    | .error exc =>
      let r := apply_adapters text sentiment rest tier scoreAcc
      (r.1, r.2.1, r.2.2.1,
        ("Adapter \x27" ++ adapter.name ++ "\x27 failed: " ++ exc) :: r.2.2.2)
    | .ok none => apply_adapters text sentiment rest tier scoreAcc
    | .ok (some result) =>
      let escalated := riskSeverity result.tier > riskSeverity tier
      let tier1 := if escalated then result.tier else tier
      let escNotes :=
        if escalated then
          ["Adapter \x27" ++ adapter.name ++ "\x27 escalated tier to "
            ++ result.tier.value ++ "."]
        else []
      let score1 := max scoreAcc result.score
      let r := apply_adapters text sentiment rest tier1 score1
      (r.1, r.2.1, result.flagged_keywords ++ r.2.2.1,
        escNotes ++ result.notes ++ r.2.2.2)

/-- `RiskClassifier.assess`. `recent_tiers` is accepted but unused by the
current algorithm, as in the source. -/
def assess (c : RiskClassifier) (text : String) (sentiment : SentimentResult)
    (recent_tiers : List RiskTier) : RiskAssessment :=
  let rag := rag_assess c.ragModule text
  let base : RiskTier × ℚ × List String × List String :=
    match rag.1 with
    | some a => (a.tier, a.score, a.flagged_keywords, a.notes ++ rag.2)
    | none =>
      (RiskTier.OK, 0, [],
        if rag.2.isEmpty then ["RAG risk module unavailable."] else rag.2)
  let flagged := base.2.2.1 ++ extract_keywords text
  let stepped := apply_adapters text sentiment c.adapters base.1 base.2.1
  let flagged := flagged ++ stepped.2.2.1
  let notes := base.2.2.2 ++ stepped.2.2.2
  { tier := stepped.1, score := round3 stepped.2.1,
    flagged_keywords := pySortedSet flagged, notes := notes }

/-- `suggest_resources`: table lookups in input order, then the default 988
hotline when the tier is HIGH/CRISIS and no hotline-type resource matched. -/
def suggest_resources (keywords : List String) (tier : RiskTier) : List Resource :=
  let suggestions := keywords.filterMap (fun keyword => RESOURCE_MAP.lookup keyword)
  if (tier = RiskTier.HIGH ∨ tier = RiskTier.CRISIS)
      ∧ ¬ suggestions.any (fun res => res.rtype = "hotline") then
    suggestions ++ [⟨"hotline", "988 Suicide & Crisis Lifeline", "tel:988"⟩]
  else
    suggestions

/-- The successful, non-`None` results of the adapter ensemble, in
invocation order (failed and no-opinion adapters contribute nothing). -/
def adapter_results (adapters : List RiskAdapter) (text : String)
    (sentiment : SentimentResult) : List RiskAssessment :=
  adapters.filterMap (fun adapter =>
    match adapter.run text sentiment with
    | .ok (some r) => some r
    | _ => none)

/-- The baseline tier and score of `assess` before the adapter stage. -/
def baselineOf (c : RiskClassifier) (text : String) : RiskTier × ℚ :=
  match (rag_assess c.ragModule text).1 with
  | some a => (a.tier, a.score)
  | none => (RiskTier.OK, 0)

end RiskClassifier

/-- The more severe of two tiers (ties keep the first), exactly the
escalation comparison of `_apply_adapters`. -/
def tierMax (a b : RiskTier) : RiskTier :=
  if riskSeverity b > riskSeverity a then b else a

/-- Maximum of a base tier and a list of tiers, in severity order. -/
def tiersMax (base : RiskTier) (tiers : List RiskTier) : RiskTier :=
  tiers.foldl tierMax base

/-- Maximum of a base score and a list of scores. -/
def scoresMax (base : ℚ) (scores : List ℚ) : ℚ :=
  scores.foldl max base

/-! ## Storage and data model of the session layer

`backend/models.py` and `backend/storage.py` are not part of the sources;
their records and the persistence collaborator are modelled from §3 and §6
of the spec. -/

/-- Modelled from the spec: `SessionRecord` (§3).  Timestamps are abstract
instants drawn from a logical clock. -/
structure SessionRecord where
  id : String
  user_id : String
  status : SessionStatus
  created_at : Nat
  updated_at : Nat
  active_risk_tier : RiskTier
  metadata : List (String × String)
deriving DecidableEq, Repr

/-- Modelled from the spec: `MessageRecord` (§3); `id` is assigned by
storage (`none` before insertion). -/
structure MessageRecord where
  id : Option Nat
  session_id : String
  sender : SenderRole
  content : String
  sentiment_score : ℚ
  risk_tier : RiskTier
  risk_score : ℚ
  flagged_keywords : List String
  created_at : Nat
deriving DecidableEq, Repr

/-- Modelled from the spec: `BufferSnapshot` (§3). -/
structure BufferSnapshot where
  session_id : String
  messages : List MessageRecord
  capacity : Nat
deriving DecidableEq, Repr

/-- Modelled from the spec: `SessionMetrics` (§3).  The Python tier/band
dicts (keyed by the enum `value`) are modelled as association lists keyed
by the enum itself, built in enum order as the source's
`{tier.value: 0 for tier in RiskTier}` comprehension is. -/
structure SessionMetrics where
  session_id : String
  message_count : Nat
  user_turns : Nat
  assistant_turns : Nat
  avg_sentiment : ℚ
  max_risk_tier : RiskTier
  tier_counts : List (RiskTier × Nat)
  band_counts : List (SentimentBand × Nat)
  trend_notes : List String
  suggested_resources : List RiskClassifier.Resource
deriving DecidableEq, Repr

/-- Modelled from the spec: `SessionSummary` (§3). -/
structure SessionSummary where
  session : SessionRecord
  metrics : SessionMetrics
  duration_seconds : Nat
  flagged_keywords : List String
  notes : List String
deriving DecidableEq, Repr

/-- Modelled from the spec: the in-memory state of the persistence
collaborator (§6) plus a logical clock for `utc_now` and the id counter of
`insertMessage`.  Message listing preserves insertion order, as required. -/
structure SessionStorage where
  sessions : List SessionRecord
  messages : List MessageRecord
  buffers : List (String × BufferSnapshot)
  metricsMap : List (String × SessionMetrics)
  clock : Nat
  nextMessageId : Nat
deriving DecidableEq, Repr

/-- Replace the first binding of `k` (dict update), or append a new one. -/
def upsertAssoc {α : Type} (k : String) (v : α) :
    List (String × α) → List (String × α)
  | [] => [(k, v)]
  | p :: rest => if p.1 = k then (k, v) :: rest else p :: upsertAssoc k v rest

namespace SessionStorage

/-- Modelled from the spec: `utc_now` as a strictly increasing logical
clock. -/
def utc_now (st : SessionStorage) : Nat × SessionStorage :=
  (st.clock, { st with clock := st.clock + 1 })

/-- Modelled from the spec: `createSession` persists the record. -/
def create_session (st : SessionStorage) (s : SessionRecord) : SessionStorage :=
  { st with sessions := st.sessions ++ [s] }

/-- Modelled from the spec: `getSession(id) -> Optional`. -/
def get_session (st : SessionStorage) (session_id : String) : Option SessionRecord :=
  st.sessions.find? (fun s => s.id = session_id)

/-- Modelled from the spec: `updateSession(id, fields)` for the two field
sets the tracker passes (`status`/`active_risk_tier`). -/
def update_session (st : SessionStorage) (session_id : String)
    (status : Option SessionStatus) (tier : Option RiskTier) : SessionStorage :=
  { st with
    sessions := st.sessions.map (fun s =>
      if s.id = session_id then
        { s with
          status := status.getD s.status,
          active_risk_tier := tier.getD s.active_risk_tier }
      else s) }

/-- Modelled from the spec: `listMessages(sessionId)`, ordered by creation
(insertion order is preserved). -/
def list_messages (st : SessionStorage) (session_id : String) : List MessageRecord :=
  st.messages.filter (fun m => m.session_id = session_id)

/-- Modelled from the spec: `recentMessages(sessionId, n)`, the most recent
`n`, oldest first. -/
def recent_messages (st : SessionStorage) (session_id : String) (n : Nat) :
    List MessageRecord :=
  let l := st.list_messages session_id
  l.drop (l.length - n)

/-- Modelled from the spec: `insertMessage(record) -> assignedRecord`. -/
def insert_message (st : SessionStorage) (m : MessageRecord) :
    MessageRecord × SessionStorage :=
  let assigned := { m with id := some st.nextMessageId }
  (assigned,
    { st with
      messages := st.messages ++ [assigned],
      nextMessageId := st.nextMessageId + 1 })

/-- Modelled from the spec: `saveBuffer(snapshot)` (upsert by session id). -/
def save_buffer (st : SessionStorage) (b : BufferSnapshot) : SessionStorage :=
  { st with buffers := upsertAssoc b.session_id b st.buffers }

/-- Modelled from the spec: `loadBuffer(sessionId) -> Optional`. -/
def load_buffer (st : SessionStorage) (session_id : String) : Option BufferSnapshot :=
  st.buffers.lookup session_id

/-- Modelled from the spec: `upsertMetrics(metrics)`. -/
def upsert_metrics (st : SessionStorage) (m : SessionMetrics) : SessionStorage :=
  { st with metricsMap := upsertAssoc m.session_id m st.metricsMap }

/-- Modelled from the spec: `getMetrics(sessionId) -> Optional`. -/
def get_metrics (st : SessionStorage) (session_id : String) : Option SessionMetrics :=
  st.metricsMap.lookup session_id

end SessionStorage

/-! ## SessionTracker (`session_tracking.py`) -/

/-- `SessionNotFound` / `SessionClosed`, the only caller-visible session
errors. -/
inductive SessionError
  | notFound (msg : String)
  | closed (msg : String)
deriving DecidableEq, Repr

/-- `_sentiment_band_from_score` of `session_tracking.py`. -/
def sentiment_band_from_score (score : ℚ) : SentimentBand :=
  if score > 1/10 then SentimentBand.POSITIVE
  else if score < -(1/10) then SentimentBand.NEGATIVE
  else SentimentBand.NEUTRAL

/-- `MessageAppendResult`. -/
structure MessageAppendResult where
  message : MessageRecord
  risk : RiskAssessment
  buffer : BufferSnapshot
  metrics : SessionMetrics
deriving DecidableEq, Repr

/-- The configuration of a `SessionTracker`: buffer size and risk
classifier (the sentiment analyzer is a pure function). -/
structure SessionTracker where
  buffer_size : Nat
  risk_classifier : RiskClassifier

namespace SessionTracker

/-- `SessionTracker.get_session`, with the raising branch made explicit. -/
def get_session (st : SessionStorage) (session_id : String) :
    Except SessionError SessionRecord :=
  match st.get_session session_id with
  | some s => Except.ok s
  | none =>
    Except.error (SessionError.notFound
      ("Session \x27" ++ session_id ++ "\x27 not found."))

/-- `SessionTracker.create_session`.  The source draws a fresh `uuid4`;
the model allocates the deterministic fresh identifier
`"session-" ++ toString st.sessions.length` instead (sessions are never
deleted, so these are unique). -/
def create_session (cfg : SessionTracker) (st : SessionStorage)
    (user_id : String) (metadata : List (String × String)) :
    SessionRecord × SessionStorage :=
  let sid := "session-" ++ toString st.sessions.length
  let t1 := st.utc_now.1
  let st1 := st.utc_now.2
  let t2 := st1.utc_now.1
  let st2 := st1.utc_now.2
  let session : SessionRecord :=
    { id := sid, user_id := user_id, status := SessionStatus.ACTIVE,
      created_at := t1, updated_at := t2,
      active_risk_tier := RiskTier.OK, metadata := metadata }
  let st3 := st2.create_session session
  let st4 := st3.save_buffer
    { session_id := session.id, messages := [], capacity := cfg.buffer_size }
  (session, st4)

/-- `SessionTracker._update_buffer`. -/
def update_buffer (cfg : SessionTracker) (st : SessionStorage)
    (session_id : String) : BufferSnapshot × SessionStorage :=
  let recent := st.recent_messages session_id cfg.buffer_size
  let snapshot : BufferSnapshot :=
    { session_id := session_id, messages := recent, capacity := cfg.buffer_size }
  (snapshot, st.save_buffer snapshot)

/-- `SessionTracker._collect_flagged_keywords`. -/
def collect_flagged_keywords (st : SessionStorage) (session_id : String) :
    List String :=
  pySortedSet ((st.list_messages session_id).flatMap (fun m => m.flagged_keywords))

/-- Bump the count of `key` in an association list (the dict `+= 1`). -/
def bumpCount {α : Type} [DecidableEq α] (counts : List (α × Nat)) (key : α) :
    List (α × Nat) :=
  counts.map (fun p => if p.1 = key then (p.1, p.2 + 1) else p)

/-- The trend-note block of `SessionTracker._recalculate_metrics`. -/
def trend_notes_of (recent_risk : List RiskTier) (avg_sentiment : ℚ) : List String :=
  if recent_risk ≠ [] then
    let last_three := recent_risk.drop (recent_risk.length - 3)
    (if last_three.all (fun t =>
        t ∈ [RiskTier.CAUTION, RiskTier.HIGH, RiskTier.CRISIS])
      then ["Sustained elevated risk across last three turns."] else [])
    ++ (if recent_risk.length ≥ 2 ∧
          riskSeverity (recent_risk.getD (recent_risk.length - 1) RiskTier.OK)
            > riskSeverity (recent_risk.getD (recent_risk.length - 2) RiskTier.OK)
      then ["Risk climbing on most recent turn."] else [])
    ++ (if avg_sentiment < -(3/10) then ["Overall negative sentiment."] else [])
  else []

/-- `SessionTracker._recalculate_metrics`: full recomputation from the
message history, upserting the result.  Returns the metrics, the sorted
flagged-keyword union and the storage.  The source passes the keyword
*set* to `suggest_resources`; the model iterates it in sorted order (the
canonical order of a set of strings). -/
def recalculate_metrics (cfg : SessionTracker) (st : SessionStorage)
    (session_id : String) : SessionMetrics × List String × SessionStorage :=
  let msgs := st.list_messages session_id
  let message_count := msgs.length
  let user_turns := (msgs.filter (fun m => m.sender = SenderRole.USER)).length
  let assistant_turns := (msgs.filter (fun m => m.sender = SenderRole.ASSISTANT)).length
  let avg_sentiment : ℚ :=
    if message_count ≠ 0 then
      round3 ((msgs.map (fun m => m.sentiment_score)).sum / (message_count : ℚ))
    else 0
  let tier_counts :=
    msgs.foldl (fun counts m => bumpCount counts m.risk_tier)
      (RiskTier.all.map (fun t => (t, 0)))
  let band_counts :=
    msgs.foldl (fun counts m => bumpCount counts (sentiment_band_from_score m.sentiment_score))
      (SentimentBand.all.map (fun b => (b, 0)))
  let flagged_keywords := msgs.flatMap (fun m => m.flagged_keywords)
  let recent_risk := msgs.map (fun m => m.risk_tier)
  let max_risk_tier :=
    RiskTier.all.foldl
      (fun best t =>
        if (tier_counts.lookup t).getD 0 ≠ 0 ∧ riskSeverity t ≥ riskSeverity best
        then t else best)
      RiskTier.OK
  let trend_notes : List String := trend_notes_of recent_risk avg_sentiment
  let suggested_resources :=
    RiskClassifier.suggest_resources (pySortedSet flagged_keywords) max_risk_tier
  let metrics : SessionMetrics :=
    { session_id := session_id, message_count := message_count,
      user_turns := user_turns, assistant_turns := assistant_turns,
      avg_sentiment := avg_sentiment, max_risk_tier := max_risk_tier,
      tier_counts := tier_counts, band_counts := band_counts,
      trend_notes := trend_notes, suggested_resources := suggested_resources }
  (metrics, pySortedSet flagged_keywords, st.upsert_metrics metrics)

/-- `SessionTracker._build_summary`. -/
def build_summary (session : SessionRecord) (metrics : SessionMetrics)
    (flagged_keywords : List String) : SessionSummary :=
  let duration_seconds := session.updated_at - session.created_at
  let notes := metrics.trend_notes
    ++ (if session.status = SessionStatus.ENDED then ["Session marked as ended."] else [])
  { session := session, metrics := metrics, duration_seconds := duration_seconds,
    flagged_keywords := flagged_keywords, notes := notes }

/-- `SessionTracker.append_message`.  The pair returns the storage in every
branch; the raising branches leave it untouched. -/
def append_message (cfg : SessionTracker) (st : SessionStorage)
    (session_id : String) (sender : SenderRole) (content : String) :
    Except SessionError MessageAppendResult × SessionStorage :=
  match get_session st session_id with
  | Except.error e => (Except.error e, st)
  | Except.ok session =>
    if session.status ≠ SessionStatus.ACTIVE then
      (Except.error (SessionError.closed
        ("Session \x27" ++ session_id ++ "\x27 is not active.")), st)
    else
      let sentiment := SentimentAnalyzer.score content
      let recent := st.recent_messages session_id cfg.buffer_size
      let recent_tiers := recent.map (fun m => m.risk_tier)
      let assessment := cfg.risk_classifier.assess content sentiment recent_tiers
      let tNow := st.utc_now.1
      let st1 := st.utc_now.2
      let message : MessageRecord :=
        { id := none, session_id := session_id, sender := sender,
          content := content, sentiment_score := sentiment.score,
          risk_tier := assessment.tier, risk_score := assessment.score,
          flagged_keywords := assessment.flagged_keywords, created_at := tNow }
      let saved := (st1.insert_message message).1
      let st2 := (st1.insert_message message).2
      let st3 := st2.update_session session_id none (some assessment.tier)
      let buffer := (update_buffer cfg st3 session_id).1
      let st4 := (update_buffer cfg st3 session_id).2
      let metrics := (recalculate_metrics cfg st4 session_id).1
      let st5 := (recalculate_metrics cfg st4 session_id).2.2
      (Except.ok
        { message := saved, risk := assessment, buffer := buffer,
          metrics := metrics }, st5)

/-- `SessionTracker.get_summary`. -/
def get_summary (cfg : SessionTracker) (st : SessionStorage)
    (session_id : String) : Except SessionError SessionSummary × SessionStorage :=
  match get_session st session_id with
  | Except.error e => (Except.error e, st)
  | Except.ok session =>
    let flagged := collect_flagged_keywords st session_id
    match st.get_metrics session_id with
    | some metrics => (Except.ok (build_summary session metrics flagged), st)
    | none =>
      let (metrics, flagged2, st) := recalculate_metrics cfg st session_id
      (Except.ok (build_summary session metrics flagged2), st)

/-- `SessionTracker.end_session`. -/
def end_session (cfg : SessionTracker) (st : SessionStorage)
    (session_id : String) : Except SessionError SessionSummary × SessionStorage :=
  match get_session st session_id with
  | Except.error e => (Except.error e, st)
  | Except.ok session =>
    if session.status = SessionStatus.ENDED then
      get_summary cfg st session_id
    else
      let (metrics, flagged, st) := recalculate_metrics cfg st session_id
      let st := st.update_session session_id
        (some SessionStatus.ENDED) (some metrics.max_risk_tier)
      match get_session st session_id with
      | Except.error e => (Except.error e, st)
      | Except.ok session2 =>
        (Except.ok (build_summary session2 metrics flagged), st)

end SessionTracker

/-! ## Derived definitions used by the lemmas below -/

namespace SessionTracker

/-- The session record as rewritten by a successful `end_session`. -/
def endedRecord (s : SessionRecord) (t : RiskTier) : SessionRecord :=
  { s with status := SessionStatus.ENDED, active_risk_tier := t }

/-- The assessment `append_message` computes for `content` against `st`. -/
def appendAssessment (cfg : SessionTracker) (st : SessionStorage)
    (sid content : String) : RiskAssessment :=
  cfg.risk_classifier.assess content (SentimentAnalyzer.score content)
    ((st.recent_messages sid cfg.buffer_size).map (fun m => m.risk_tier))

end SessionTracker

/-! ## Concrete scenario data -/

/-- The empty storage state of a fresh deployment. -/
def emptyStorage : SessionStorage :=
  { sessions := [], messages := [], buffers := [], metricsMap := [],
    clock := 0, nextMessageId := 0 }

/-- The default tracker: buffer size 20, classifier with no adapters and no
importable external risk module (the fallback when
`backend.core.risk_types` cannot be imported). -/
def defaultTracker : SessionTracker :=
  { buffer_size := 20, risk_classifier := { adapters := [], ragModule := none } }

/-- A sentiment result with no lexicon matches. -/
def neutralSentiment : SentimentResult :=
  { score := 0, band := SentimentBand.NEUTRAL, tokens := [] }

/-- A structured external-model response with the given tier label and score. -/
def ragRawOf (label : String) (sc : ℚ) : RagRaw :=
  { risk_level := some label, tier := none, score := some sc,
    dimensions := RagDims.absent, dimension := none, notes := [],
    emotion := none }

/-- An external risk model that reports HIGH for the message `"m1"` and OK
for everything else. -/
def demoRagModule : String → Except String RagResponse := fun text =>
  Except.ok (RagResponse.dict
    (if text = "m1" then ragRawOf "high" (1/2) else ragRawOf "ok" 0))

/-- Tracker wired to `demoRagModule`. -/
def demoTracker : SessionTracker :=
  { buffer_size := 20,
    risk_classifier := { adapters := [], ragModule := some demoRagModule } }

/-- Session id and storage after `create_session` for `"u1"`. -/
def demoSid : String :=
  (SessionTracker.create_session demoTracker emptyStorage "u1" []).1.id

def demoState0 : SessionStorage :=
  (SessionTracker.create_session demoTracker emptyStorage "u1" []).2

/-- Storage after appending `"m1"` (assessed HIGH). -/
def demoState1 : SessionStorage :=
  (SessionTracker.append_message demoTracker demoState0 demoSid
    SenderRole.USER "m1").2

/-- Storage after then appending `"m2"` (assessed OK). -/
def demoState2 : SessionStorage :=
  (SessionTracker.append_message demoTracker demoState1 demoSid
    SenderRole.USER "m2").2

/-- The maximum tier of a tier history, in severity order. -/
def maxTierOf (tiers : List RiskTier) : RiskTier := tiersMax RiskTier.OK tiers

/-- A lone ACTIVE session record. -/
def s1Record : SessionRecord :=
  { id := "s1", user_id := "u1", status := SessionStatus.ACTIVE,
    created_at := 0, updated_at := 1, active_risk_tier := RiskTier.OK,
    metadata := [] }

/-- A storage holding a single ACTIVE session `"s1"` with no messages. -/
def oneSessionStorage : SessionStorage :=
  { sessions := [s1Record], messages := [], buffers := [], metricsMap := [],
    clock := 2, nextMessageId := 0 }

/-- An adapter returning a tiny positive score with tier OK. -/
def tinyScoreAdapter : RiskAdapter :=
  { name := "tiny",
    run := fun _ _ => Except.ok (some
      { tier := RiskTier.OK, score := 1/10000, flagged_keywords := [],
        notes := [] }) }

def tinyScoreClassifier : RiskClassifier :=
  { adapters := [tinyScoreAdapter], ragModule := none }

/-- An adapter returning a score of 5, far outside [0, 1]. -/
def bigScoreAdapter : RiskAdapter :=
  { name := "big",
    run := fun _ _ => Except.ok (some
      { tier := RiskTier.OK, score := 5, flagged_keywords := [],
        notes := [] }) }

def bigScoreClassifier : RiskClassifier :=
  { adapters := [bigScoreAdapter], ragModule := none }

/-- An adapter that always raises. -/
def throwingAdapter : RiskAdapter :=
  { name := "flaky", run := fun _ _ => Except.error "boom" }

/-- An adapter that reports CAUTION. -/
def cautionAdapter : RiskAdapter :=
  { name := "cautious",
    run := fun _ _ => Except.ok (some
      { tier := RiskTier.CAUTION, score := 1/2, flagged_keywords := [],
        notes := [] }) }

def failThenCautionClassifier : RiskClassifier :=
  { adapters := [throwingAdapter, cautionAdapter], ragModule := none }

/-- The C5 scenario: session for `"u1"`, then the user message
`"I feel hopeless and empty"`. -/
def c5Sid : String :=
  (SessionTracker.create_session defaultTracker emptyStorage "u1" []).1.id

def c5State0 : SessionStorage :=
  (SessionTracker.create_session defaultTracker emptyStorage "u1" []).2

def c5Append : Except SessionError MessageAppendResult × SessionStorage :=
  SessionTracker.append_message defaultTracker c5State0 c5Sid
    SenderRole.USER "I feel hopeless and empty"

/-! ## Supporting lemmas: sentiment scoring -/

lemma scoreStep_fst (tokens : List String) (acc : Int × Nat × List String)
    (idx : Nat) :
    (SentimentAnalyzer.scoreStep tokens acc idx).1
      = acc.1 + SentimentAnalyzer.tokenContribution tokens idx := by
  unfold SentimentAnalyzer.scoreStep SentimentAnalyzer.tokenContribution
  by_cases hp : tokens.getD idx "" ∈ SentimentAnalyzer.POSITIVE_WORDS <;>
    by_cases hn : tokens.getD idx "" ∈ SentimentAnalyzer.NEGATIVE_WORDS <;>
    by_cases hg : idx > 0 ∧ tokens.getD (idx - 1) "" ∈ SentimentAnalyzer.NEGATIONS <;>
    simp only [hp, hn, hg, if_true, if_false, ite_true, ite_false,
      eq_self_iff_true, not_true, not_false_iff] <;>
    ring

lemma foldl_scoreStep_fst (tokens : List String) (idxs : List Nat)
    (acc : Int × Nat × List String) :
    ((idxs.foldl (SentimentAnalyzer.scoreStep tokens) acc).1)
      = acc.1 + ((idxs.map (SentimentAnalyzer.tokenContribution tokens)).sum) := by
  induction idxs generalizing acc with
  | nil => simp
  | cons i rest ih =>
    simp only [List.foldl_cons, List.map_cons, List.sum_cons]
    rw [ih, scoreStep_fst]
    ring

/-- The accumulated raw sentiment score is the sum of the per-position
signed contributions. -/
lemma scoreLoop_fst (tokens : List String) :
    (SentimentAnalyzer.scoreLoop tokens).1
      = (((List.range tokens.length).map
          (SentimentAnalyzer.tokenContribution tokens)).sum) := by
  unfold SentimentAnalyzer.scoreLoop
  rw [foldl_scoreStep_fst]
  simp

/-! ## Supporting lemmas: risk classifier -/

lemma tiersMax_cons (base t : RiskTier) (ts : List RiskTier) :
    tiersMax base (t :: ts) = tiersMax (tierMax base t) ts := rfl

lemma scoresMax_cons (base s : ℚ) (ss : List ℚ) :
    scoresMax base (s :: ss) = scoresMax (max base s) ss := rfl

lemma riskSeverity_tierMax (a b : RiskTier) :
    riskSeverity (tierMax a b) = max (riskSeverity a) (riskSeverity b) := by
  unfold tierMax
  split_ifs with h <;> omega

lemma sev_le_tierMax_left (a b : RiskTier) :
    riskSeverity a ≤ riskSeverity (tierMax a b) := by
  rw [riskSeverity_tierMax]; omega

lemma sev_le_tiersMax_base (ts : List RiskTier) :
    ∀ base : RiskTier, riskSeverity base ≤ riskSeverity (tiersMax base ts) := by
  induction ts with
  | nil => intro base; exact le_refl _
  | cons t rest ih =>
    intro base
    rw [tiersMax_cons]
    exact le_trans (sev_le_tierMax_left base t) (ih (tierMax base t))

lemma tiersMax_append (a b : List RiskTier) (base : RiskTier) :
    tiersMax base (a ++ b) = tiersMax (tiersMax base a) b := by
  simp [tiersMax, List.foldl_append]

lemma scoresMax_le_base (ss : List ℚ) :
    ∀ base : ℚ, base ≤ scoresMax base ss := by
  induction ss with
  | nil => intro base; exact le_refl _
  | cons s rest ih =>
    intro base
    rw [scoresMax_cons]
    exact le_trans (le_max_left base s) (ih (max base s))

lemma scoresMax_bounds (ss : List ℚ) :
    ∀ base : ℚ, 0 ≤ base → base ≤ 1 → (∀ s ∈ ss, 0 ≤ s ∧ s ≤ 1) →
      0 ≤ scoresMax base ss ∧ scoresMax base ss ≤ 1 := by
  induction ss with
  | nil => intro base h0 h1 _; exact ⟨h0, h1⟩
  | cons s rest ih =>
    intro base h0 h1 hall
    rw [scoresMax_cons]
    have hs := hall s (List.mem_cons_self s rest)
    exact ih (max base s) (le_trans h0 (le_max_left base s))
      (max_le h1 hs.2) (fun x hx => hall x (List.mem_cons_of_mem s hx))

lemma round3_zero : round3 0 = 0 := by norm_num [round3]

lemma round3_bounds (q : ℚ) (h0 : 0 ≤ q) (h1 : q ≤ 1) :
    0 ≤ round3 q ∧ round3 q ≤ 1 := by
  unfold round3
  have hnn : (0 : ℤ) ≤ round (q * 1000) := by
    rw [round_eq]
    apply Int.floor_nonneg.mpr
    nlinarith
  have hub : round (q * 1000) ≤ 1000 := by
    rw [round_eq]
    calc ⌊q * 1000 + 1/2⌋ ≤ ⌊(1000 : ℚ) + 1/2⌋ := Int.floor_mono (by nlinarith)
    _ = 1000 := by norm_num
  constructor
  · apply div_nonneg _ (by norm_num)
    exact_mod_cast hnn
  · rw [div_le_one (by norm_num)]
    exact_mod_cast hub

namespace RiskClassifier

lemma apply_adapters_tier (text : String) (sentiment : SentimentResult) :
    ∀ (ads : List RiskAdapter) (tier : RiskTier) (scoreAcc : ℚ),
      (apply_adapters text sentiment ads tier scoreAcc).1
        = tiersMax tier ((adapter_results ads text sentiment).map (fun r => r.tier)) := by
  intro ads
  induction ads with
  | nil => intro tier scoreAcc; rfl
  | cons ad rest ih =>
    intro tier scoreAcc
    simp only [apply_adapters, adapter_results, List.filterMap_cons]
    cases h : ad.run text sentiment with
    | error e =>
      simp only [h]
      exact ih tier scoreAcc
    | ok o =>
      cases o with
      | none =>
        simp only [h]
        exact ih tier scoreAcc
      | some r =>
        simp only [h, List.map_cons, tiersMax_cons]
        exact ih _ _

lemma apply_adapters_score (text : String) (sentiment : SentimentResult) :
    ∀ (ads : List RiskAdapter) (tier : RiskTier) (scoreAcc : ℚ),
      (apply_adapters text sentiment ads tier scoreAcc).2.1
        = scoresMax scoreAcc ((adapter_results ads text sentiment).map (fun r => r.score)) := by
  intro ads
  induction ads with
  | nil => intro tier scoreAcc; rfl
  | cons ad rest ih =>
    intro tier scoreAcc
    simp only [apply_adapters, adapter_results, List.filterMap_cons]
    cases h : ad.run text sentiment with
    | error e =>
      simp only [h]
      exact ih tier scoreAcc
    | ok o =>
      cases o with
      | none =>
        simp only [h]
        exact ih tier scoreAcc
      | some r =>
        simp only [h, List.map_cons, scoresMax_cons]
        exact ih _ _

lemma adapter_results_append (a b : List RiskAdapter) (text : String)
    (sentiment : SentimentResult) :
    adapter_results (a ++ b) text sentiment
      = adapter_results a text sentiment ++ adapter_results b text sentiment := by
  simp [adapter_results, List.filterMap_append]

/-- `assess` tier characterization. -/
lemma assess_tier (c : RiskClassifier) (text : String)
    (sentiment : SentimentResult) (recent_tiers : List RiskTier) :
    (c.assess text sentiment recent_tiers).tier
      = tiersMax (baselineOf c text).1
          ((adapter_results c.adapters text sentiment).map (fun r => r.tier)) := by
  unfold assess baselineOf
  cases h : (rag_assess c.ragModule text).1 <;>
    simp [h, apply_adapters_tier]

/-- `assess` score characterization. -/
lemma assess_score (c : RiskClassifier) (text : String)
    (sentiment : SentimentResult) (recent_tiers : List RiskTier) :
    (c.assess text sentiment recent_tiers).score
      = round3 (scoresMax (baselineOf c text).2
          ((adapter_results c.adapters text sentiment).map (fun r => r.score))) := by
  unfold assess baselineOf
  cases h : (rag_assess c.ragModule text).1 <;>
    simp [h, apply_adapters_score]

end RiskClassifier

/-! ## Supporting lemmas: session layer -/

lemma lookup_cons_ne {κ α : Type} [BEq κ] [LawfulBEq κ] (k : κ) (p : κ × α)
    (rest : List (κ × α)) (h : p.1 ≠ k) :
    ((p :: rest).lookup k) = rest.lookup k := by
  have hb : (k == p.1) = false := beq_eq_false_iff_ne.mpr (fun hh => h hh.symm)
  simp [List.lookup, hb]

lemma upsertAssoc_lookup {α : Type} (k : String) (v : α) :
    ∀ l : List (String × α), (upsertAssoc k v l).lookup k = some v := by
  intro l
  induction l with
  | nil => simp [upsertAssoc, List.lookup]
  | cons p rest ih =>
    by_cases h : p.1 = k
    · simp [upsertAssoc, h, List.lookup]
    · simp only [upsertAssoc, h, if_false, ite_false]
      rw [lookup_cons_ne k p _ h]
      exact ih

lemma find_map_preserving {α : Type} (p : α → Bool) (f : α → α)
    (hf : ∀ x, p (f x) = p x) :
    ∀ l : List α, (l.map f).find? p = (l.find? p).map f := by
  intro l
  induction l with
  | nil => simp
  | cons x rest ih =>
    by_cases hx : p x
    · simp [List.find?_cons, hx, hf]
    · have hx' : p x = false := by simp [hx]
      simp [List.find?_cons, hx', hf, ih]

lemma messages_upsert_metrics (st : SessionStorage) (m : SessionMetrics) :
    (st.upsert_metrics m).messages = st.messages := rfl

lemma sessions_upsert_metrics (st : SessionStorage) (m : SessionMetrics) :
    (st.upsert_metrics m).sessions = st.sessions := rfl

lemma messages_update_session (st : SessionStorage) (sid : String)
    (status : Option SessionStatus) (tier : Option RiskTier) :
    (st.update_session sid status tier).messages = st.messages := rfl

lemma metricsMap_update_session (st : SessionStorage) (sid : String)
    (status : Option SessionStatus) (tier : Option RiskTier) :
    (st.update_session sid status tier).metricsMap = st.metricsMap := rfl

lemma list_messages_upsert_metrics (st : SessionStorage) (m : SessionMetrics)
    (sid : String) :
    (st.upsert_metrics m).list_messages sid = st.list_messages sid := rfl

lemma list_messages_update_session (st : SessionStorage) (sid sid' : String)
    (status : Option SessionStatus) (tier : Option RiskTier) :
    (st.update_session sid status tier).list_messages sid' = st.list_messages sid' := rfl

lemma get_metrics_update_session (st : SessionStorage) (sid sid' : String)
    (status : Option SessionStatus) (tier : Option RiskTier) :
    (st.update_session sid status tier).get_metrics sid' = st.get_metrics sid' := rfl

lemma get_session_upsert_metrics (st : SessionStorage) (m : SessionMetrics)
    (sid : String) :
    (st.upsert_metrics m).get_session sid = st.get_session sid := rfl

lemma get_metrics_upsert_metrics (st : SessionStorage) (m : SessionMetrics) :
    (st.upsert_metrics m).get_metrics m.session_id = some m := by
  unfold SessionStorage.upsert_metrics SessionStorage.get_metrics
  exact upsertAssoc_lookup m.session_id m st.metricsMap

lemma get_session_update_session (st : SessionStorage) (sid : String)
    (status : Option SessionStatus) (tier : Option RiskTier) :
    (st.update_session sid status tier).get_session sid
      = (st.get_session sid).map (fun s =>
          { s with status := status.getD s.status,
                   active_risk_tier := tier.getD s.active_risk_tier }) := by
  unfold SessionStorage.update_session SessionStorage.get_session
  have hpres : ∀ x : SessionRecord,
      (decide ((if x.id = sid then
          { x with status := status.getD x.status,
                   active_risk_tier := tier.getD x.active_risk_tier }
        else x).id = sid)) = decide (x.id = sid) := by
    intro x
    by_cases hx : x.id = sid <;> simp [hx]
  rw [find_map_preserving _ _ hpres]
  cases hfind : st.sessions.find? (fun s => decide (s.id = sid)) with
  | none => rfl
  | some s =>
    have hsid : s.id = sid := by
      have := List.find?_some hfind
      simpa using this
    simp [hsid]

namespace SessionTracker

lemma get_session_of_storage_some (st : SessionStorage) (sid : String)
    (s : SessionRecord) (h : st.get_session sid = some s) :
    get_session st sid = Except.ok s := by
  unfold get_session
  rw [h]

lemma recalculate_metrics_storage (cfg : SessionTracker) (st : SessionStorage)
    (sid : String) :
    (recalculate_metrics cfg st sid).2.2
      = st.upsert_metrics (recalculate_metrics cfg st sid).1 := rfl

lemma recalculate_metrics_sid (cfg : SessionTracker) (st : SessionStorage)
    (sid : String) :
    (recalculate_metrics cfg st sid).1.session_id = sid := rfl

lemma recalculate_metrics_flagged (cfg : SessionTracker) (st : SessionStorage)
    (sid : String) :
    (recalculate_metrics cfg st sid).2.1
      = pySortedSet ((st.list_messages sid).flatMap (fun m => m.flagged_keywords)) := rfl

lemma collect_flagged_eq (st st' : SessionStorage) (sid : String)
    (h : st.list_messages sid = st'.list_messages sid) :
    collect_flagged_keywords st sid = collect_flagged_keywords st' sid := by
  unfold collect_flagged_keywords
  rw [h]

lemma recalculate_metrics_congr (cfg : SessionTracker) (st st' : SessionStorage)
    (sid : String) (h : st.list_messages sid = st'.list_messages sid) :
    (recalculate_metrics cfg st sid).1 = (recalculate_metrics cfg st' sid).1
    ∧ (recalculate_metrics cfg st sid).2.1 = (recalculate_metrics cfg st' sid).2.1 := by
  unfold recalculate_metrics
  rw [h]
  exact ⟨rfl, rfl⟩

end SessionTracker

namespace SessionTracker

/-- `get_summary` with cached metrics mutates nothing. -/
lemma get_summary_cached (cfg : SessionTracker) (st : SessionStorage)
    (sid : String) (s : SessionRecord) (m : SessionMetrics)
    (hs : st.get_session sid = some s) (hm : st.get_metrics sid = some m) :
    get_summary cfg st sid
      = (Except.ok (build_summary s m (collect_flagged_keywords st sid)), st) := by
  unfold get_summary
  rw [get_session_of_storage_some st sid s hs, hm]

/-- `get_summary` with missing metrics recomputes and upserts them. -/
lemma get_summary_fresh (cfg : SessionTracker) (st : SessionStorage)
    (sid : String) (s : SessionRecord)
    (hs : st.get_session sid = some s) (hm : st.get_metrics sid = none) :
    get_summary cfg st sid
      = (Except.ok (build_summary s (recalculate_metrics cfg st sid).1
            (recalculate_metrics cfg st sid).2.1),
         st.upsert_metrics (recalculate_metrics cfg st sid).1) := by
  unfold get_summary
  rw [get_session_of_storage_some st sid s hs, hm]
  have h22 := recalculate_metrics_storage cfg st sid
  rcases hrec : recalculate_metrics cfg st sid with ⟨m1, fl1, st1⟩
  rw [hrec] at h22
  simp only [hrec]
  simp only at h22
  rw [h22]

/-- `end_session` on an already-ENDED session defers to `get_summary`. -/
lemma end_session_ended (cfg : SessionTracker) (st : SessionStorage)
    (sid : String) (s : SessionRecord)
    (hs : st.get_session sid = some s) (hstat : s.status = SessionStatus.ENDED) :
    end_session cfg st sid = get_summary cfg st sid := by
  unfold end_session
  rw [get_session_of_storage_some st sid s hs]
  simp [hstat]

/-- `end_session` on an ACTIVE session: recompute metrics, mark ENDED and
set the active tier to the historical max, and summarize. -/
lemma end_session_active (cfg : SessionTracker) (st : SessionStorage)
    (sid : String) (s : SessionRecord)
    (hs : st.get_session sid = some s) (hstat : s.status ≠ SessionStatus.ENDED) :
    end_session cfg st sid
      = (Except.ok (build_summary
            (endedRecord s (recalculate_metrics cfg st sid).1.max_risk_tier)
            (recalculate_metrics cfg st sid).1
            (recalculate_metrics cfg st sid).2.1),
         (st.upsert_metrics (recalculate_metrics cfg st sid).1).update_session sid
           (some SessionStatus.ENDED)
           (some (recalculate_metrics cfg st sid).1.max_risk_tier)) := by
  have hget :
      ((st.upsert_metrics (recalculate_metrics cfg st sid).1).update_session sid
          (some SessionStatus.ENDED)
          (some (recalculate_metrics cfg st sid).1.max_risk_tier)).get_session sid
        = some (endedRecord s (recalculate_metrics cfg st sid).1.max_risk_tier) := by
    rw [get_session_update_session, get_session_upsert_metrics, hs]
    rfl
  unfold end_session
  rw [get_session_of_storage_some st sid s hs]
  simp only [hstat, if_false, ite_false]
  have h22 := recalculate_metrics_storage cfg st sid
  rcases hrec : recalculate_metrics cfg st sid with ⟨m1, fl1, st1⟩
  rw [hrec] at h22 hget
  simp only at h22
  rw [h22] at hget
  simp only [hrec, h22]
  rw [get_session_of_storage_some _ _ _ hget]

end SessionTracker

namespace SessionTracker

lemma get_session_of_storage_none (st : SessionStorage) (sid : String)
    (h : st.get_session sid = none) :
    get_session st sid = Except.error
      (SessionError.notFound ("Session \x27" ++ sid ++ "\x27 not found.")) := by
  unfold get_session
  rw [h]

lemma end_session_notFound (cfg : SessionTracker) (st : SessionStorage)
    (sid : String) (h : st.get_session sid = none) :
    end_session cfg st sid
      = (Except.error (SessionError.notFound
          ("Session \x27" ++ sid ++ "\x27 not found.")), st) := by
  unfold end_session
  rw [get_session_of_storage_none st sid h]

/-- Idempotence of `end_session`: after a successful call, a second call
returns the identical summary-and-storage pair, and the stored session is
ENDED. -/
lemma end_session_idem_aux (cfg : SessionTracker) (st : SessionStorage) (sid : String)
    (h : (end_session cfg st sid).1.isOk = true) :
    end_session cfg (end_session cfg st sid).2 sid = end_session cfg st sid
    ∧ (((end_session cfg st sid).2.get_session sid).map (fun s => s.status))
        = some SessionStatus.ENDED := by
  rcases hs : st.get_session sid with _ | s
  · rw [end_session_notFound cfg st sid hs] at h
    simp [Except.isOk, Except.toBool] at h
  · by_cases hstat : s.status = SessionStatus.ENDED
    · rcases hm : st.get_metrics sid with _ | m
      · -- already ENDED, metrics missing: first call recomputes them
        have hfirst : end_session cfg st sid
            = (Except.ok (build_summary s (recalculate_metrics cfg st sid).1
                  (recalculate_metrics cfg st sid).2.1),
               st.upsert_metrics (recalculate_metrics cfg st sid).1) := by
          rw [end_session_ended cfg st sid s hs hstat,
            get_summary_fresh cfg st sid s hs hm]
        have hs1 : (st.upsert_metrics (recalculate_metrics cfg st sid).1).get_session sid
            = some s := by
          rw [get_session_upsert_metrics]; exact hs
        have hm1 : (st.upsert_metrics (recalculate_metrics cfg st sid).1).get_metrics sid
            = some (recalculate_metrics cfg st sid).1 := by
          have hk := get_metrics_upsert_metrics st (recalculate_metrics cfg st sid).1
          rwa [recalculate_metrics_sid] at hk
        have hfl : collect_flagged_keywords
              (st.upsert_metrics (recalculate_metrics cfg st sid).1) sid
            = (recalculate_metrics cfg st sid).2.1 := by
          rw [recalculate_metrics_flagged]
          unfold collect_flagged_keywords
          rw [list_messages_upsert_metrics]
        have hsecond : end_session cfg
              (st.upsert_metrics (recalculate_metrics cfg st sid).1) sid
            = (Except.ok (build_summary s (recalculate_metrics cfg st sid).1
                  (recalculate_metrics cfg st sid).2.1),
               st.upsert_metrics (recalculate_metrics cfg st sid).1) := by
          rw [end_session_ended cfg _ sid s hs1 hstat,
            get_summary_cached cfg _ sid s _ hs1 hm1, hfl]
        refine ⟨?_, ?_⟩
        · rw [hfirst]
          dsimp only
          exact hsecond
        · rw [hfirst]
          simp [hs1, hstat]
      · -- already ENDED, metrics cached: first call mutates nothing
        have hfirst : end_session cfg st sid
            = (Except.ok (build_summary s m (collect_flagged_keywords st sid)), st) := by
          rw [end_session_ended cfg st sid s hs hstat,
            get_summary_cached cfg st sid s m hs hm]
        refine ⟨?_, ?_⟩
        · rw [hfirst]
          dsimp only
          exact hfirst
        · rw [hfirst]
          simp [hs, hstat]
    · -- ACTIVE: first call transitions to ENDED
      have hfirst := end_session_active cfg st sid s hs hstat
      have hsF : ((st.upsert_metrics (recalculate_metrics cfg st sid).1).update_session sid
            (some SessionStatus.ENDED)
            (some (recalculate_metrics cfg st sid).1.max_risk_tier)).get_session sid
          = some (endedRecord s (recalculate_metrics cfg st sid).1.max_risk_tier) := by
        rw [get_session_update_session, get_session_upsert_metrics, hs]
        rfl
      have hmF : ((st.upsert_metrics (recalculate_metrics cfg st sid).1).update_session sid
            (some SessionStatus.ENDED)
            (some (recalculate_metrics cfg st sid).1.max_risk_tier)).get_metrics sid
          = some (recalculate_metrics cfg st sid).1 := by
        rw [get_metrics_update_session]
        have hk := get_metrics_upsert_metrics st (recalculate_metrics cfg st sid).1
        rwa [recalculate_metrics_sid] at hk
      have hflF : collect_flagged_keywords
            ((st.upsert_metrics (recalculate_metrics cfg st sid).1).update_session sid
              (some SessionStatus.ENDED)
              (some (recalculate_metrics cfg st sid).1.max_risk_tier)) sid
          = (recalculate_metrics cfg st sid).2.1 := by
        rw [recalculate_metrics_flagged]
        unfold collect_flagged_keywords
        rw [list_messages_update_session, list_messages_upsert_metrics]
      have hsecond : end_session cfg
            ((st.upsert_metrics (recalculate_metrics cfg st sid).1).update_session sid
              (some SessionStatus.ENDED)
              (some (recalculate_metrics cfg st sid).1.max_risk_tier)) sid
          = (Except.ok (build_summary
                (endedRecord s (recalculate_metrics cfg st sid).1.max_risk_tier)
                (recalculate_metrics cfg st sid).1
                (recalculate_metrics cfg st sid).2.1),
             (st.upsert_metrics (recalculate_metrics cfg st sid).1).update_session sid
               (some SessionStatus.ENDED)
               (some (recalculate_metrics cfg st sid).1.max_risk_tier)) := by
        rw [end_session_ended cfg _ sid _ hsF rfl,
          get_summary_cached cfg _ sid _ _ hsF hmF, hflF]
      refine ⟨?_, ?_⟩
      · rw [hfirst]
        dsimp only
        exact hsecond
      · rw [hfirst]
        dsimp only
        simp [hsF, endedRecord]

end SessionTracker

namespace SessionTracker

lemma append_message_notFound (cfg : SessionTracker) (st : SessionStorage)
    (sid : String) (sender : SenderRole) (content : String)
    (h : st.get_session sid = none) :
    append_message cfg st sid sender content
      = (Except.error (SessionError.notFound
          ("Session \x27" ++ sid ++ "\x27 not found.")), st) := by
  unfold append_message
  rw [get_session_of_storage_none st sid h]

lemma append_message_closed (cfg : SessionTracker) (st : SessionStorage)
    (sid : String) (sender : SenderRole) (content : String)
    (session : SessionRecord)
    (hs : st.get_session sid = some session)
    (hstat : session.status ≠ SessionStatus.ACTIVE) :
    append_message cfg st sid sender content
      = (Except.error (SessionError.closed
          ("Session \x27" ++ sid ++ "\x27 is not active.")), st) := by
  unfold append_message
  rw [get_session_of_storage_some st sid session hs]
  simp [hstat]

lemma get_session_save_buffer (st : SessionStorage) (b : BufferSnapshot)
    (sid : String) :
    (st.save_buffer b).get_session sid = st.get_session sid := rfl

lemma get_session_insert_message (st : SessionStorage) (m : MessageRecord)
    (sid : String) :
    ((st.insert_message m).2).get_session sid = st.get_session sid := rfl

lemma get_session_clock (st : SessionStorage) (sid : String) :
    (st.utc_now.2).get_session sid = st.get_session sid := rfl

lemma get_session_update_buffer (cfg : SessionTracker) (st : SessionStorage)
    (sid sid' : String) :
    ((update_buffer cfg st sid).2).get_session sid' = st.get_session sid' := rfl

/-- `append_message` on an ACTIVE session succeeds; its risk assessment is
`appendAssessment`, the appended record carries that tier, and the stored
session's `active_risk_tier` becomes that tier (last-write). -/
lemma append_message_active (cfg : SessionTracker) (st : SessionStorage)
    (sid : String) (sender : SenderRole) (content : String)
    (session : SessionRecord)
    (hs : st.get_session sid = some session)
    (hact : session.status = SessionStatus.ACTIVE) :
    ∃ res st',
      append_message cfg st sid sender content = (Except.ok res, st')
      ∧ res.risk = appendAssessment cfg st sid content
      ∧ res.message.risk_tier = (appendAssessment cfg st sid content).tier
      ∧ st'.get_session sid
          = some { session with
              active_risk_tier := (appendAssessment cfg st sid content).tier } := by
  unfold append_message
  rw [get_session_of_storage_some st sid session hs]
  simp only [hact, ne_eq, not_true_eq_false, ite_false, if_false]
  refine ⟨_, _, rfl, rfl, rfl, ?_⟩
  rw [recalculate_metrics_storage, get_session_upsert_metrics,
    get_session_update_buffer, get_session_update_session,
    get_session_insert_message, get_session_clock, hs]
  simp [appendAssessment]
  exact hact

end SessionTracker

namespace SessionTracker

/-- Failing `append_message` leaves the storage (sessions, messages,
buffers, metrics) untouched: both checks precede every mutation. -/
lemma append_message_error_state (cfg : SessionTracker) (st : SessionStorage)
    (sid : String) (sender : SenderRole) (content : String)
    (e : SessionError) (st' : SessionStorage)
    (h : append_message cfg st sid sender content = (Except.error e, st')) :
    st' = st := by
  rcases hsession : st.get_session sid with _ | s
  · rw [append_message_notFound cfg st sid sender content hsession] at h
    exact (congrArg Prod.snd h).symm
  · by_cases hact : s.status = SessionStatus.ACTIVE
    · obtain ⟨res, stF, heq, -, -, -⟩ :=
        append_message_active cfg st sid sender content s hsession hact
      rw [heq] at h
      exact absurd (congrArg Prod.fst h) (by simp)
    · rw [append_message_closed cfg st sid sender content s hsession hact] at h
      exact (congrArg Prod.snd h).symm

end SessionTracker

/-! ## Supporting lemmas: tier counts and trend notes -/

lemma bumpCount_keys {α : Type} [DecidableEq α] (counts : List (α × Nat)) (key : α) :
    (SessionTracker.bumpCount counts key).map Prod.fst = counts.map Prod.fst := by
  induction counts with
  | nil => rfl
  | cons p rest ih =>
    by_cases h : p.1 = key <;>
      simp [SessionTracker.bumpCount, h] <;>
      simpa [SessionTracker.bumpCount] using ih

lemma bumpCount_sum {α : Type} [DecidableEq α] (counts : List (α × Nat)) (key : α) :
    ((SessionTracker.bumpCount counts key).map Prod.snd).sum
      = (counts.map Prod.snd).sum + (counts.map Prod.fst).count key := by
  induction counts with
  | nil => rfl
  | cons p rest ih =>
    have hbump : SessionTracker.bumpCount (p :: rest) key
        = (if p.1 = key then (p.1, p.2 + 1) else p) :: SessionTracker.bumpCount rest key := rfl
    rw [hbump]
    by_cases h : p.1 = key
    · rw [if_pos h]
      have hbeq : (p.1 == key) = true := beq_iff_eq.mpr h
      simp only [List.map_cons, List.sum_cons, List.count_cons, ih, hbeq, if_true, ite_true]
      omega
    · rw [if_neg h]
      have hbeq : (p.1 == key) = false := beq_eq_false_iff_ne.mpr h
      simp only [List.map_cons, List.sum_cons, List.count_cons, ih, hbeq,
        Bool.false_eq_true, if_false, ite_false]
      omega

lemma foldl_bumpCount {α : Type} [DecidableEq α] (f : MessageRecord → α)
    (KS : List α) (hcount : ∀ x : α, KS.count x = 1) :
    ∀ (msgs : List MessageRecord) (counts : List (α × Nat)),
      counts.map Prod.fst = KS →
      ((msgs.foldl (fun c m => SessionTracker.bumpCount c (f m)) counts).map Prod.fst = KS
      ∧ ((msgs.foldl (fun c m => SessionTracker.bumpCount c (f m)) counts).map Prod.snd).sum
          = (counts.map Prod.snd).sum + msgs.length) := by
  intro msgs
  induction msgs with
  | nil => intro counts h; exact ⟨h, rfl⟩
  | cons m rest ih =>
    intro counts h
    have hkeys : (SessionTracker.bumpCount counts (f m)).map Prod.fst = KS := by
      rw [bumpCount_keys]; exact h
    obtain ⟨ih1, ih2⟩ := ih (SessionTracker.bumpCount counts (f m)) hkeys
    refine ⟨ih1, ?_⟩
    simp only [List.foldl_cons] at *
    rw [ih2, bumpCount_sum, h, hcount (f m)]
    simp [List.length_cons]
    omega

lemma lookup_isSome_of_mem_keys {α β : Type} [DecidableEq α]
    (l : List (α × β)) (k : α) (h : k ∈ l.map Prod.fst) :
    (l.lookup k).isSome = true := by
  induction l with
  | nil => simp at h
  | cons p rest ih =>
    simp only [List.map_cons, List.mem_cons] at h
    rcases h with h | h
    · simp [List.lookup, h]
    · by_cases hk : k = p.1
      · simp [List.lookup, hk]
      · rw [lookup_cons_ne k p rest (fun hh => hk hh.symm)]
        exact ih h

namespace SessionTracker

/-- The recomputed tier counts: one entry per enum member, values summing
to the message count. -/
lemma recalculate_metrics_tier_counts (cfg : SessionTracker)
    (st : SessionStorage) (sid : String) :
    (((recalculate_metrics cfg st sid).1.tier_counts.map Prod.snd).sum
        = (recalculate_metrics cfg st sid).1.message_count)
    ∧ ∀ t : RiskTier,
        ((recalculate_metrics cfg st sid).1.tier_counts.lookup t).isSome = true := by
  have hKS : ∀ x : RiskTier, (RiskTier.all.count x) = 1 := by
    intro x
    cases x <;> decide
  have hinit : (RiskTier.all.map (fun t => (t, (0 : Nat)))).map Prod.fst
      = RiskTier.all := by decide
  have hmc : (recalculate_metrics cfg st sid).1.message_count
      = (st.list_messages sid).length := rfl
  have htc : (recalculate_metrics cfg st sid).1.tier_counts
      = (st.list_messages sid).foldl (fun c m => bumpCount c m.risk_tier)
          (RiskTier.all.map (fun t => (t, 0))) := rfl
  obtain ⟨hkeys, hsum⟩ := foldl_bumpCount (fun m => m.risk_tier) RiskTier.all hKS
    (st.list_messages sid) (RiskTier.all.map (fun t => (t, 0))) hinit
  constructor
  · rw [htc, hsum, hmc]
    simp [RiskTier.all]
  · intro t
    apply lookup_isSome_of_mem_keys
    rw [htc, hkeys]
    cases t <;> simp [RiskTier.all]

end SessionTracker

lemma mem_ite_singleton (x a : String) (c : Prop) [Decidable c] :
    (x ∈ (if c then [a] else [])) ↔ c ∧ x = a := by
  split_ifs with h <;> simp [h]

namespace SessionTracker

lemma tier_ge_caution_iff (t : RiskTier) :
    (t ∈ [RiskTier.CAUTION, RiskTier.HIGH, RiskTier.CRISIS])
      ↔ riskSeverity RiskTier.CAUTION ≤ riskSeverity t := by
  cases t <;> simp [riskSeverity]

lemma recalculate_metrics_trend_notes_eq (cfg : SessionTracker)
    (st : SessionStorage) (sid : String) :
    (recalculate_metrics cfg st sid).1.trend_notes
      = trend_notes_of ((st.list_messages sid).map (fun m => m.risk_tier))
          (recalculate_metrics cfg st sid).1.avg_sentiment := rfl

lemma sustained_mem_trend_notes (tiers : List RiskTier) (avg : ℚ) :
    ("Sustained elevated risk across last three turns." ∈ trend_notes_of tiers avg)
      ↔ (tiers ≠ [] ∧ ∀ t ∈ tiers.drop (tiers.length - 3),
          riskSeverity RiskTier.CAUTION ≤ riskSeverity t) := by
  unfold trend_notes_of
  by_cases h0 : tiers = []
  · simp [h0]
  · simp only [h0, ne_eq, not_false_iff, if_true, ite_true, List.mem_append,
      mem_ite_singleton]
    simp +decide [List.all_eq_true]
    constructor
    · intro h t ht
      rcases h t ht with h1 | h1 | h1 <;> subst h1 <;> simp [riskSeverity]
    · intro h t ht
      have := h t ht
      cases t <;> simp_all [riskSeverity]

lemma climbing_mem_trend_notes (tiers : List RiskTier) (avg : ℚ) :
    ("Risk climbing on most recent turn." ∈ trend_notes_of tiers avg)
      ↔ (2 ≤ tiers.length ∧
          riskSeverity (tiers.getD (tiers.length - 2) RiskTier.OK)
            < riskSeverity (tiers.getD (tiers.length - 1) RiskTier.OK)) := by
  unfold trend_notes_of
  by_cases h0 : tiers = []
  · simp [h0]
  · simp only [h0, ne_eq, not_false_iff, if_true, ite_true, List.mem_append,
      mem_ite_singleton]
    simp +decide [ge_iff_le, gt_iff_lt]

end SessionTracker

/-! ## Supporting lemmas: classifier failure isolation -/

namespace RiskClassifier

lemma rag_assess_none (text : String) :
    rag_assess none text = (none, ["RAG risk module unavailable."]) := rfl

lemma rag_assess_error (f : String → Except String RagResponse) (text e : String)
    (h : f text = Except.error e) :
    rag_assess (some f) text = (none, ["RAG risk module error: " ++ e]) := by
  unfold rag_assess
  dsimp only
  rw [h]

lemma rag_assess_nonDict (f : String → Except String RagResponse) (text : String)
    (h : f text = Except.ok RagResponse.nonDict) :
    rag_assess (some f) text
      = (none, ["RAG risk module returned an unexpected response."]) := by
  unfold rag_assess
  dsimp only
  rw [h]

/-- When the baseline call yields no assessment and no adapters are
registered, `assess` returns the safe default: tier OK, score 0, the local
keywords, and the failure diagnostics as notes. -/
lemma assess_baseline_failed (c : RiskClassifier) (text : String)
    (sentiment : SentimentResult) (recent_tiers : List RiskTier)
    (h : (rag_assess c.ragModule text).1 = none) (hAd : c.adapters = []) :
    c.assess text sentiment recent_tiers
      = { tier := RiskTier.OK, score := 0,
          flagged_keywords := pySortedSet (extract_keywords text),
          notes := if (rag_assess c.ragModule text).2.isEmpty
            then ["RAG risk module unavailable."]
            else (rag_assess c.ragModule text).2 } := by
  unfold assess
  rw [hAd]
  simp only [h, apply_adapters, round3_zero, List.append_nil, List.nil_append]

/-- A throwing adapter is converted to a note naming it; tier, score and
flagged keywords are exactly those computed with the remaining adapters. -/
lemma assess_failing_adapter (c : RiskClassifier) (ad : RiskAdapter)
    (rest : List RiskAdapter) (text e : String) (sentiment : SentimentResult)
    (recent_tiers : List RiskTier)
    (hc : c.adapters = ad :: rest)
    (had : ad.run text sentiment = Except.error e) :
    ((c.assess text sentiment recent_tiers).tier
        = ((RiskClassifier.mk rest c.ragModule).assess text sentiment recent_tiers).tier)
    ∧ ((c.assess text sentiment recent_tiers).score
        = ((RiskClassifier.mk rest c.ragModule).assess text sentiment recent_tiers).score)
    ∧ ((c.assess text sentiment recent_tiers).flagged_keywords
        = ((RiskClassifier.mk rest c.ragModule).assess text sentiment recent_tiers).flagged_keywords)
    ∧ (("Adapter \x27" ++ ad.name ++ "\x27 failed: " ++ e)
        ∈ (c.assess text sentiment recent_tiers).notes) := by
  unfold assess
  rw [hc]
  simp only [apply_adapters, had]
  simp

end RiskClassifier

/-! ## Supporting lemmas: score normalization and bounds -/

namespace RiskClassifier

lemma normalize_score_nonneg (v : Option ℚ) : 0 ≤ normalize_score v := by
  cases v with
  | none => simp [normalize_score]
  | some s => simp [normalize_score, le_max_left]

lemma normalize_score_le_one (v : Option ℚ) : normalize_score v ≤ 1 := by
  cases v with
  | none => simp [normalize_score]
  | some s =>
    simp only [normalize_score]
    exact max_le (by norm_num) (min_le_left _ _)

lemma normalize_score_scales (q : ℚ) (h : q > 1) :
    normalize_score (some q) = max 0 (min 1 (q / 3)) := by
  simp [normalize_score, h]

/-- Every successful baseline assessment carries a normalized score. -/
lemma rag_assess_fst_some_score (module : Option (String → Except String RagResponse))
    (text : String) (a : RiskAssessment)
    (h : (rag_assess module text).1 = some a) :
    ∃ v, a.score = normalize_score v := by
  rcases module with _ | f
  · rw [rag_assess_none] at h
    simp at h
  · cases hf : f text with
    | error e =>
      rw [rag_assess_error f text e hf] at h
      simp at h
    | ok r =>
      cases r with
      | nonDict =>
        rw [rag_assess_nonDict f text hf] at h
        simp at h
      | dict raw =>
        unfold rag_assess at h
        dsimp only at h
        rw [hf] at h
        dsimp only at h
        injection h with h1
        exact ⟨raw.score, by rw [← h1]⟩

lemma baselineOf_bounds (c : RiskClassifier) (text : String) :
    0 ≤ (baselineOf c text).2 ∧ (baselineOf c text).2 ≤ 1 := by
  unfold baselineOf
  cases h : (rag_assess c.ragModule text).1 with
  | none => simp
  | some a =>
    obtain ⟨v, hv⟩ := rag_assess_fst_some_score c.ragModule text a h
    simp only [hv]
    exact ⟨normalize_score_nonneg v, normalize_score_le_one v⟩

/-- When every adapter score is within [0, 1], the assessed score is too. -/
lemma assess_score_bounds (c : RiskClassifier) (text : String)
    (sentiment : SentimentResult) (recent_tiers : List RiskTier)
    (hall : ∀ r ∈ adapter_results c.adapters text sentiment,
      0 ≤ r.score ∧ r.score ≤ 1) :
    0 ≤ (c.assess text sentiment recent_tiers).score
    ∧ (c.assess text sentiment recent_tiers).score ≤ 1 := by
  rw [assess_score]
  obtain ⟨hb0, hb1⟩ := baselineOf_bounds c text
  obtain ⟨hs0, hs1⟩ := scoresMax_bounds
    ((adapter_results c.adapters text sentiment).map (fun r => r.score))
    (baselineOf c text).2 hb0 hb1
    (by
      intro s hs
      obtain ⟨r, hr, hrs⟩ := List.mem_map.mp hs
      rw [← hrs]
      exact hall r hr)
  exact round3_bounds _ hs0 hs1

end RiskClassifier

lemma sev_tiersMax_prefix (l1 l2 : List RiskTier) (base : RiskTier) :
    riskSeverity (tiersMax base l1) ≤ riskSeverity (tiersMax base (l1 ++ l2)) := by
  rw [tiersMax_append]
  exact sev_le_tiersMax_base l2 (tiersMax base l1)

namespace RiskClassifier

/-- The running tier never decreases as the adapter list is consumed. -/
lemma apply_adapters_monotone (text : String) (sentiment : SentimentResult)
    (l1 l2 : List RiskAdapter) (tier : RiskTier) (scoreAcc : ℚ) :
    riskSeverity (apply_adapters text sentiment l1 tier scoreAcc).1
      ≤ riskSeverity (apply_adapters text sentiment (l1 ++ l2) tier scoreAcc).1 := by
  rw [apply_adapters_tier, apply_adapters_tier, adapter_results_append,
    List.map_append]
  exact sev_tiersMax_prefix _ _ tier

/-- The assessed tier is at least as severe as the baseline tier. -/
lemma assess_tier_ge_baseline (c : RiskClassifier) (text : String)
    (sentiment : SentimentResult) (recent_tiers : List RiskTier) :
    riskSeverity (baselineOf c text).1
      ≤ riskSeverity (c.assess text sentiment recent_tiers).tier := by
  rw [assess_tier]
  exact sev_le_tiersMax_base _ _

end RiskClassifier

/-! ## Claim theorems -/

/-- C4: in `SentimentAnalyzer.score`, the accumulated score is the sum of
per-position contributions; a lexicon word immediately preceded by a
negation token contributes its unit sign inverted; negation looks only one
token back (the contribution of a position depends only on that position
and its immediate predecessor, and position 0 is never negated); "not calm"
scores negative with band NEGATIVE, "calm" alone scores positive with band
POSITIVE. -/
theorem C4_negation_inverts_contribution :
    (∀ tokens : List String, (SentimentAnalyzer.scoreLoop tokens).1
        = ((List.range tokens.length).map
            (SentimentAnalyzer.tokenContribution tokens)).sum)
    ∧ (∀ (tokens : List String) (idx : Nat), 0 < idx →
        tokens.getD (idx - 1) "" ∈ SentimentAnalyzer.NEGATIONS →
        SentimentAnalyzer.tokenContribution tokens idx
          = -(SentimentAnalyzer.unitSign (tokens.getD idx "")))
    ∧ (∀ (tokens : List String) (idx : Nat),
        (idx = 0 ∨ tokens.getD (idx - 1) "" ∉ SentimentAnalyzer.NEGATIONS) →
        SentimentAnalyzer.tokenContribution tokens idx
          = SentimentAnalyzer.unitSign (tokens.getD idx ""))
    ∧ (SentimentAnalyzer.score "not calm").score < 0
    ∧ (SentimentAnalyzer.score "not calm").band = SentimentBand.NEGATIVE
    ∧ (SentimentAnalyzer.score "not calm").tokens = ["calm"]
    ∧ 0 < (SentimentAnalyzer.score "calm").score
    ∧ (SentimentAnalyzer.score "calm").band = SentimentBand.POSITIVE := by
  refine ⟨scoreLoop_fst, ?_, ?_, ?_, ?_, ?_, ?_, ?_⟩
  · intro tokens idx h1 h2
    have hg : idx > 0 ∧ tokens.getD (idx - 1) "" ∈ SentimentAnalyzer.NEGATIONS :=
      ⟨h1, h2⟩
    unfold SentimentAnalyzer.tokenContribution SentimentAnalyzer.unitSign
    by_cases hp : tokens.getD idx "" ∈ SentimentAnalyzer.POSITIVE_WORDS <;>
      by_cases hn : tokens.getD idx "" ∈ SentimentAnalyzer.NEGATIVE_WORDS <;>
      simp only [hp, hn, hg, if_true, ite_true, if_false, ite_false,
        eq_self_iff_true, not_true, not_false_iff] <;>
      norm_num
  · intro tokens idx h
    have hg : ¬(idx > 0 ∧ tokens.getD (idx - 1) "" ∈ SentimentAnalyzer.NEGATIONS) := by
      rcases h with h | h
      · intro hc
        rw [h] at hc
        exact absurd hc.1 (by omega)
      · intro hc
        exact h hc.2
    unfold SentimentAnalyzer.tokenContribution SentimentAnalyzer.unitSign
    by_cases hp : tokens.getD idx "" ∈ SentimentAnalyzer.POSITIVE_WORDS <;>
      by_cases hn : tokens.getD idx "" ∈ SentimentAnalyzer.NEGATIVE_WORDS <;>
      simp only [hp, hn, hg, if_true, ite_true, if_false, ite_false,
        eq_self_iff_true, not_true, not_false_iff] <;>
      norm_num
  · norm_num +decide [SentimentAnalyzer.score, SentimentAnalyzer.scoreLoop,
      SentimentAnalyzer.scoreStep, SentimentAnalyzer.POSITIVE_WORDS,
      SentimentAnalyzer.NEGATIVE_WORDS, SentimentAnalyzer.NEGATIONS,
      reFindall, findallAux, isWordChar, apostrophe, lowerStr, round3,
      round_eq, List.range, List.range.loop]
  · norm_num +decide [SentimentAnalyzer.score, SentimentAnalyzer.scoreLoop,
      SentimentAnalyzer.scoreStep, SentimentAnalyzer.POSITIVE_WORDS,
      SentimentAnalyzer.NEGATIVE_WORDS, SentimentAnalyzer.NEGATIONS,
      reFindall, findallAux, isWordChar, apostrophe, lowerStr, round3,
      round_eq, List.range, List.range.loop]
  · norm_num +decide [SentimentAnalyzer.score, SentimentAnalyzer.scoreLoop,
      SentimentAnalyzer.scoreStep, SentimentAnalyzer.POSITIVE_WORDS,
      SentimentAnalyzer.NEGATIVE_WORDS, SentimentAnalyzer.NEGATIONS,
      reFindall, findallAux, isWordChar, apostrophe, lowerStr, round3,
      round_eq, List.range, List.range.loop]
  · norm_num +decide [SentimentAnalyzer.score, SentimentAnalyzer.scoreLoop,
      SentimentAnalyzer.scoreStep, SentimentAnalyzer.POSITIVE_WORDS,
      SentimentAnalyzer.NEGATIVE_WORDS, SentimentAnalyzer.NEGATIONS,
      reFindall, findallAux, isWordChar, apostrophe, lowerStr, round3,
      round_eq, List.range, List.range.loop]
  · norm_num +decide [SentimentAnalyzer.score, SentimentAnalyzer.scoreLoop,
      SentimentAnalyzer.scoreStep, SentimentAnalyzer.POSITIVE_WORDS,
      SentimentAnalyzer.NEGATIVE_WORDS, SentimentAnalyzer.NEGATIONS,
      reFindall, findallAux, isWordChar, apostrophe, lowerStr, round3,
      round_eq, List.range, List.range.loop]

/-- C4 witness: the negation-inversion and no-negation clauses applied at
the token list of "not calm" and at position 0 of "hopeless calm". -/
theorem C4_witness :
    (SentimentAnalyzer.tokenContribution ["not", "calm"] 1
      = -(SentimentAnalyzer.unitSign (["not", "calm"].getD 1 "")))
    ∧ (SentimentAnalyzer.tokenContribution ["hopeless", "calm"] 0
      = SentimentAnalyzer.unitSign (["hopeless", "calm"].getD 0 "")) :=
  ⟨C4_negation_inverts_contribution.2.1 ["not", "calm"] 1 (by decide) (by decide),
   C4_negation_inverts_contribution.2.2.1 ["hopeless", "calm"] 0 (Or.inl rfl)⟩

/-- C2 (amended): for every classifier, text, sentiment and tier history,
the assessed tier is the severity-maximum of the baseline tier and all
non-`None` adapter tiers; the running tier never decreases while the
adapter list is consumed and never drops below the baseline; and the
returned score is the maximum of the baseline score and all non-`None`
adapter scores, rounded to 3 decimal places. -/
theorem C2_fusion_max (c : RiskClassifier) (text : String)
    (sentiment : SentimentResult) (recent_tiers : List RiskTier) :
    ((c.assess text sentiment recent_tiers).tier
        = tiersMax (RiskClassifier.baselineOf c text).1
            ((RiskClassifier.adapter_results c.adapters text sentiment).map
              (fun r => r.tier)))
    ∧ ((c.assess text sentiment recent_tiers).score
        = round3 (scoresMax (RiskClassifier.baselineOf c text).2
            ((RiskClassifier.adapter_results c.adapters text sentiment).map
              (fun r => r.score))))
    ∧ (∀ (l1 l2 : List RiskAdapter) (tier : RiskTier) (scoreAcc : ℚ),
        riskSeverity (RiskClassifier.apply_adapters text sentiment l1 tier scoreAcc).1
          ≤ riskSeverity
              (RiskClassifier.apply_adapters text sentiment (l1 ++ l2) tier scoreAcc).1)
    ∧ (riskSeverity (RiskClassifier.baselineOf c text).1
        ≤ riskSeverity (c.assess text sentiment recent_tiers).tier) :=
  ⟨RiskClassifier.assess_tier c text sentiment recent_tiers,
   RiskClassifier.assess_score c text sentiment recent_tiers,
   fun l1 l2 tier scoreAcc =>
     RiskClassifier.apply_adapters_monotone text sentiment l1 l2 tier scoreAcc,
   RiskClassifier.assess_tier_ge_baseline c text sentiment recent_tiers⟩

/-- C2 counterexample: with an adapter reporting score 1/10000 and an
unavailable external model, the returned score is the rounded value 0, not
the exact maximum 1/10000 the claim requires. -/
theorem C2_counterexample :
    (tinyScoreClassifier.assess "a" neutralSentiment []).score
      ≠ scoresMax (RiskClassifier.baselineOf tinyScoreClassifier "a").2
          ((RiskClassifier.adapter_results tinyScoreClassifier.adapters "a"
              neutralSentiment).map (fun r => r.score)) := by
  norm_num +decide [RiskClassifier.assess, RiskClassifier.rag_assess,
    RiskClassifier.extract_keywords, RiskClassifier.find_phrases,
    RiskClassifier.find_keywords, RiskClassifier.CRISIS_PHRASES,
    RiskClassifier.HIGH_KEYWORDS, RiskClassifier.CAUTION_KEYWORDS,
    RiskClassifier.apply_adapters, RiskClassifier.adapter_results,
    RiskClassifier.baselineOf, tinyScoreClassifier, tinyScoreAdapter,
    neutralSentiment, strContains, containsSub, leadsWith, lowerStr,
    reFindall, findallAux, isWordChar, apostrophe, pySortedSet,
    sortStrings, insertSorted, charsLt, round3, round_eq, riskSeverity,
    scoresMax, tiersMax, tierMax, List.filterMap_cons, List.filterMap_nil,
    List.foldl_cons, List.foldl_nil]

/-- C3: classifier failures never escape.  A missing module, a throwing
call, or a non-dict response each yield no baseline assessment and a
diagnostic note; with no adapters that makes `assess` return tier OK,
score 0, the local keywords and the diagnostic; and a throwing adapter is
converted to a note naming it while the remaining adapters still determine
tier, score and flagged keywords — `assess` is a total function, so message
processing always completes. -/
theorem C3_failures_absorbed :
    (∀ text : String, RiskClassifier.rag_assess none text
        = (none, ["RAG risk module unavailable."]))
    ∧ (∀ (f : String → Except String RagResponse) (text e : String),
        f text = Except.error e →
        RiskClassifier.rag_assess (some f) text
          = (none, ["RAG risk module error: " ++ e]))
    ∧ (∀ (f : String → Except String RagResponse) (text : String),
        f text = Except.ok RagResponse.nonDict →
        RiskClassifier.rag_assess (some f) text
          = (none, ["RAG risk module returned an unexpected response."]))
    ∧ (∀ (c : RiskClassifier) (text : String) (sentiment : SentimentResult)
        (recent_tiers : List RiskTier),
        (RiskClassifier.rag_assess c.ragModule text).1 = none →
        c.adapters = [] →
        c.assess text sentiment recent_tiers
          = { tier := RiskTier.OK, score := 0,
              flagged_keywords := pySortedSet (RiskClassifier.extract_keywords text),
              notes := if (RiskClassifier.rag_assess c.ragModule text).2.isEmpty
                then ["RAG risk module unavailable."]
                else (RiskClassifier.rag_assess c.ragModule text).2 })
    ∧ (∀ (c : RiskClassifier) (ad : RiskAdapter) (rest : List RiskAdapter)
        (text e : String) (sentiment : SentimentResult)
        (recent_tiers : List RiskTier),
        c.adapters = ad :: rest →
        ad.run text sentiment = Except.error e →
        ((c.assess text sentiment recent_tiers).tier
            = ((RiskClassifier.mk rest c.ragModule).assess text sentiment
                recent_tiers).tier)
        ∧ ((c.assess text sentiment recent_tiers).score
            = ((RiskClassifier.mk rest c.ragModule).assess text sentiment
                recent_tiers).score)
        ∧ ((c.assess text sentiment recent_tiers).flagged_keywords
            = ((RiskClassifier.mk rest c.ragModule).assess text sentiment
                recent_tiers).flagged_keywords)
        ∧ (("Adapter \x27" ++ ad.name ++ "\x27 failed: " ++ e)
            ∈ (c.assess text sentiment recent_tiers).notes)) :=
  ⟨RiskClassifier.rag_assess_none,
   RiskClassifier.rag_assess_error,
   RiskClassifier.rag_assess_nonDict,
   RiskClassifier.assess_baseline_failed,
   fun c ad rest text e sentiment recent_tiers hc had =>
     RiskClassifier.assess_failing_adapter c ad rest text e sentiment
       recent_tiers hc had⟩

/-- C3 witness: the failure clauses applied to a throwing module and to the
classifier with a throwing adapter followed by a CAUTION adapter. -/
theorem C3_witness :
    (RiskClassifier.rag_assess (some (fun _ => Except.error "boom")) "hi"
        = (none, ["RAG risk module error: boom"]))
    ∧ (RiskClassifier.rag_assess (some (fun _ => Except.ok RagResponse.nonDict)) "hi"
        = (none, ["RAG risk module returned an unexpected response."]))
    ∧ (defaultTracker.risk_classifier.assess "hi" neutralSentiment []
        = { tier := RiskTier.OK, score := 0,
            flagged_keywords := pySortedSet (RiskClassifier.extract_keywords "hi"),
            notes := ["RAG risk module unavailable."] })
    ∧ ((failThenCautionClassifier.assess "hi" neutralSentiment []).tier
        = ((RiskClassifier.mk [cautionAdapter] none).assess "hi"
            neutralSentiment []).tier)
    ∧ (("Adapter \x27flaky\x27 failed: boom")
        ∈ (failThenCautionClassifier.assess "hi" neutralSentiment []).notes) := by
  have h2 := C3_failures_absorbed.2.1 (fun _ => Except.error "boom") "hi" "boom" rfl
  have h3 := C3_failures_absorbed.2.2.1 (fun _ => Except.ok RagResponse.nonDict) "hi" rfl
  have h4 := C3_failures_absorbed.2.2.2.1 defaultTracker.risk_classifier "hi"
    neutralSentiment [] (by rfl) (by rfl)
  have h5 := C3_failures_absorbed.2.2.2.2 failThenCautionClassifier
    throwingAdapter [cautionAdapter] "hi" "boom" neutralSentiment [] rfl rfl
  refine ⟨h2, h3, ?_, h5.1, ?_⟩
  · rw [h4]
    simp [defaultTracker, RiskClassifier.rag_assess]
  · have := h5.2.2.2
    simpa [throwingAdapter] using this

/-- C6 (amended): the external model's raw score is divided by 3 when it
exceeds 1.0 and clamped to [0, 1]; the normalized baseline always lies in
[0, 1]; and the final assessed score lies in [0, 1] whenever every adapter
score does (adapter scores are *not* re-clamped by `_apply_adapters`). -/
theorem C6_score_range :
    (∀ v : Option ℚ, 0 ≤ normalize_score v ∧ normalize_score v ≤ 1)
    ∧ (∀ q : ℚ, q > 1 → normalize_score (some q) = max 0 (min 1 (q / 3)))
    ∧ (∀ (c : RiskClassifier) (text : String) (sentiment : SentimentResult)
        (recent_tiers : List RiskTier),
        (∀ r ∈ RiskClassifier.adapter_results c.adapters text sentiment,
          0 ≤ r.score ∧ r.score ≤ 1) →
        0 ≤ (c.assess text sentiment recent_tiers).score
        ∧ (c.assess text sentiment recent_tiers).score ≤ 1) :=
  ⟨fun v => ⟨RiskClassifier.normalize_score_nonneg v,
      RiskClassifier.normalize_score_le_one v⟩,
   RiskClassifier.normalize_score_scales,
   RiskClassifier.assess_score_bounds⟩

/-- C6 counterexample: an adapter score of 5 flows through unclamped, so
the returned assessment score is 5 > 1, outside [0, 1]. -/
theorem C6_counterexample :
    (bigScoreClassifier.assess "a" neutralSentiment []).score = 5
    ∧ ¬ (bigScoreClassifier.assess "a" neutralSentiment []).score ≤ 1 := by
  constructor <;>
  norm_num +decide [RiskClassifier.assess, RiskClassifier.rag_assess,
    RiskClassifier.extract_keywords, RiskClassifier.find_phrases,
    RiskClassifier.find_keywords, RiskClassifier.CRISIS_PHRASES,
    RiskClassifier.HIGH_KEYWORDS, RiskClassifier.CAUTION_KEYWORDS,
    RiskClassifier.apply_adapters, bigScoreClassifier, bigScoreAdapter,
    neutralSentiment, strContains, containsSub, leadsWith, lowerStr,
    reFindall, findallAux, isWordChar, apostrophe, pySortedSet,
    sortStrings, insertSorted, charsLt, round3, round_eq, riskSeverity]

/-- C6 witness: the scaling clause at the raw score 2 and the range clause
for the adapter-free default classifier. -/
theorem C6_witness :
    (normalize_score (some 2) = max 0 (min 1 (2 / 3)))
    ∧ (0 ≤ (defaultTracker.risk_classifier.assess "hi" neutralSentiment []).score
        ∧ (defaultTracker.risk_classifier.assess "hi" neutralSentiment []).score ≤ 1) :=
  ⟨C6_score_range.2.1 2 (by norm_num),
   C6_score_range.2.2 defaultTracker.risk_classifier "hi" neutralSentiment []
     (by
       intro r hr
       simp [RiskClassifier.adapter_results, defaultTracker] at hr)⟩

/-- C1 (amended): after each successful `append_message`, the session's
`active_risk_tier` equals the tier of the message just assessed
(last-write, not the history max); `end_session` on a non-ENDED session
sets it to the recomputed metrics' `max_risk_tier` (the full-history max). -/
theorem C1_active_tier_last_write :
    (∀ (cfg : SessionTracker) (st : SessionStorage) (sid : String)
        (sender : SenderRole) (content : String),
        (SessionTracker.append_message cfg st sid sender content).1.isOk = true →
        (((SessionTracker.append_message cfg st sid sender content).2.get_session
            sid).map (fun s => s.active_risk_tier))
          = ((SessionTracker.append_message cfg st sid sender content).1.toOption.map
              (fun r => r.risk.tier)))
    ∧ (∀ (cfg : SessionTracker) (st : SessionStorage) (sid : String)
        (s : SessionRecord),
        st.get_session sid = some s → s.status ≠ SessionStatus.ENDED →
        (((SessionTracker.end_session cfg st sid).2.get_session sid).map
            (fun s => s.active_risk_tier))
          = some (SessionTracker.recalculate_metrics cfg st sid).1.max_risk_tier) := by
  constructor
  · intro cfg st sid sender content h
    rcases hs : st.get_session sid with _ | s
    · rw [SessionTracker.append_message_notFound cfg st sid sender content hs] at h
      simp [Except.isOk, Except.toBool] at h
    · by_cases hact : s.status = SessionStatus.ACTIVE
      · obtain ⟨res, stF, heq, hrisk, -, hget⟩ :=
          SessionTracker.append_message_active cfg st sid sender content s hs hact
        rw [heq]
        dsimp only
        simp [hget, hrisk, Except.toOption]
      · rw [SessionTracker.append_message_closed cfg st sid sender content s hs hact] at h
        simp [Except.isOk, Except.toBool] at h
  · intro cfg st sid s hs hstat
    rw [SessionTracker.end_session_active cfg st sid s hs hstat]
    dsimp only
    rw [get_session_update_session, get_session_upsert_metrics, hs]
    simp [SessionTracker.endedRecord]

/-- C1 counterexample: in the `demo` run the first message is assessed HIGH
and the second OK, after which `active_risk_tier` is OK while the history
max is HIGH — so `active_risk_tier` neither equals the max tier nor is it
monotonically non-decreasing. -/
theorem C1_counterexample :
    ((demoState2.get_session demoSid).map (fun s => s.active_risk_tier))
        = some RiskTier.OK
    ∧ ((demoState2.list_messages demoSid).map (fun m => m.risk_tier))
        = [RiskTier.HIGH, RiskTier.OK]
    ∧ maxTierOf [RiskTier.HIGH, RiskTier.OK] = RiskTier.HIGH
    ∧ ((demoState2.get_session demoSid).map (fun s => s.active_risk_tier))
        ≠ some (maxTierOf ((demoState2.list_messages demoSid).map
            (fun m => m.risk_tier))) := by
  refine ⟨?_, ?_, by decide, ?_⟩ <;>
  norm_num +decide [SessionTracker.append_message, SessionTracker.create_session,
    SessionTracker.get_session, SessionTracker.update_buffer,
    SessionTracker.recalculate_metrics, SessionTracker.trend_notes_of,
    SessionTracker.bumpCount, SessionTracker.collect_flagged_keywords,
    SessionStorage.utc_now, SessionStorage.create_session,
    SessionStorage.get_session, SessionStorage.update_session,
    SessionStorage.list_messages, SessionStorage.recent_messages,
    SessionStorage.insert_message, SessionStorage.save_buffer,
    SessionStorage.load_buffer, SessionStorage.upsert_metrics,
    SessionStorage.get_metrics, upsertAssoc,
    RiskClassifier.assess, RiskClassifier.rag_assess,
    RiskClassifier.extract_keywords, RiskClassifier.find_phrases,
    RiskClassifier.find_keywords, RiskClassifier.CRISIS_PHRASES,
    RiskClassifier.HIGH_KEYWORDS, RiskClassifier.CAUTION_KEYWORDS,
    RiskClassifier.apply_adapters, RiskClassifier.suggest_resources,
    RiskClassifier.RESOURCE_MAP, normalize_score, tier_from_label, pyOr,
    SentimentAnalyzer.score, SentimentAnalyzer.scoreLoop,
    SentimentAnalyzer.scoreStep, SentimentAnalyzer.POSITIVE_WORDS,
    SentimentAnalyzer.NEGATIVE_WORDS, SentimentAnalyzer.NEGATIONS,
    sentiment_band_from_score, strContains, containsSub, leadsWith,
    lowerStr, strip, reFindall, findallAux, isWordChar, apostrophe,
    pySortedSet, sortStrings, insertSorted, charsLt, round3, round_eq,
    riskSeverity, List.range, List.range.loop, maxTierOf, tiersMax, tierMax,
    demoState2, demoState1, demoState0, demoSid, demoTracker, demoRagModule,
    ragRawOf, emptyStorage]

/-- C1 witness: both clauses at the one-session storage, appending `"hi"`
and ending the session. -/
theorem C1_witness :
    ((SessionTracker.append_message defaultTracker oneSessionStorage "s1"
        SenderRole.USER "hi").1.isOk = true
      ∧ (((SessionTracker.append_message defaultTracker oneSessionStorage "s1"
            SenderRole.USER "hi").2.get_session "s1").map
          (fun s => s.active_risk_tier))
        = ((SessionTracker.append_message defaultTracker oneSessionStorage "s1"
            SenderRole.USER "hi").1.toOption.map (fun r => r.risk.tier)))
    ∧ (oneSessionStorage.get_session "s1" = some s1Record
      ∧ (((SessionTracker.end_session defaultTracker oneSessionStorage "s1").2.get_session
            "s1").map (fun s => s.active_risk_tier))
        = some (SessionTracker.recalculate_metrics defaultTracker oneSessionStorage
            "s1").1.max_risk_tier) := by
  have hok : (SessionTracker.append_message defaultTracker oneSessionStorage "s1"
      SenderRole.USER "hi").1.isOk = true := by
    norm_num +decide [SessionTracker.append_message, SessionTracker.get_session,
      SessionTracker.update_buffer, SessionTracker.recalculate_metrics,
      SessionTracker.trend_notes_of, SessionTracker.bumpCount,
      SessionStorage.utc_now, SessionStorage.get_session,
      SessionStorage.update_session, SessionStorage.list_messages,
      SessionStorage.recent_messages, SessionStorage.insert_message,
      SessionStorage.save_buffer, SessionStorage.upsert_metrics, upsertAssoc,
      RiskClassifier.assess, RiskClassifier.rag_assess,
      RiskClassifier.extract_keywords, RiskClassifier.find_phrases,
      RiskClassifier.find_keywords, RiskClassifier.CRISIS_PHRASES,
      RiskClassifier.HIGH_KEYWORDS, RiskClassifier.CAUTION_KEYWORDS,
      RiskClassifier.apply_adapters, RiskClassifier.suggest_resources,
      RiskClassifier.RESOURCE_MAP, SentimentAnalyzer.score,
      SentimentAnalyzer.scoreLoop, SentimentAnalyzer.scoreStep,
      SentimentAnalyzer.POSITIVE_WORDS, SentimentAnalyzer.NEGATIVE_WORDS,
      SentimentAnalyzer.NEGATIONS, sentiment_band_from_score, strContains,
      containsSub, leadsWith, lowerStr, reFindall, findallAux, isWordChar,
      apostrophe, pySortedSet, sortStrings, insertSorted, charsLt, round3,
      round_eq, riskSeverity, List.range, List.range.loop, defaultTracker,
      oneSessionStorage, s1Record]
  have hs : oneSessionStorage.get_session "s1" = some s1Record := by decide
  exact ⟨⟨hok, C1_active_tier_last_write.1 defaultTracker oneSessionStorage "s1"
      SenderRole.USER "hi" hok⟩,
    hs, C1_active_tier_last_write.2 defaultTracker oneSessionStorage "s1"
      s1Record hs (by decide)⟩

/-- C5 counterexample: with the external risk model unavailable (the
default), appending "I feel hopeless and empty" yields tier OK, which is
strictly below CAUTION — the expected "tier ≥ CAUTION" fails because local
keyword extraction never changes the tier. -/
theorem C5_counterexample :
    ((c5Append.1.toOption.map (fun r => r.risk.tier)) = some RiskTier.OK)
    ∧ riskSeverity RiskTier.OK < riskSeverity RiskTier.CAUTION := by
  refine ⟨?_, by decide⟩
  norm_num +decide [c5Append, c5State0, c5Sid,
    SessionTracker.append_message, SessionTracker.create_session,
    SessionTracker.get_session, SessionTracker.update_buffer,
    SessionTracker.recalculate_metrics, SessionTracker.trend_notes_of,
    SessionTracker.bumpCount, SessionStorage.utc_now,
    SessionStorage.create_session, SessionStorage.get_session,
    SessionStorage.update_session, SessionStorage.list_messages,
    SessionStorage.recent_messages, SessionStorage.insert_message,
    SessionStorage.save_buffer, SessionStorage.upsert_metrics, upsertAssoc,
    RiskClassifier.assess, RiskClassifier.rag_assess,
    RiskClassifier.extract_keywords, RiskClassifier.find_phrases,
    RiskClassifier.find_keywords, RiskClassifier.CRISIS_PHRASES,
    RiskClassifier.HIGH_KEYWORDS, RiskClassifier.CAUTION_KEYWORDS,
    RiskClassifier.apply_adapters, RiskClassifier.suggest_resources,
    RiskClassifier.RESOURCE_MAP, SentimentAnalyzer.score,
    SentimentAnalyzer.scoreLoop, SentimentAnalyzer.scoreStep,
    SentimentAnalyzer.POSITIVE_WORDS, SentimentAnalyzer.NEGATIVE_WORDS,
    SentimentAnalyzer.NEGATIONS, sentiment_band_from_score, strContains,
    containsSub, leadsWith, lowerStr, reFindall, findallAux, isWordChar,
    apostrophe, pySortedSet, sortStrings, insertSorted, charsLt, round3,
    round_eq, riskSeverity, List.range, List.range.loop, defaultTracker,
    emptyStorage, Except.toOption]

/-- C5 (amended): the scenario's message is sentiment band NEGATIVE, its
flagged keywords are exactly "empty" and "hopeless" (so both expected
keywords are surfaced), and — the external model being unavailable — the
assessed tier is the OK baseline, not ≥ CAUTION. -/
theorem C5_scenario :
    ((SentimentAnalyzer.score "I feel hopeless and empty").band
        = SentimentBand.NEGATIVE)
    ∧ ((c5Append.1.toOption.map (fun r => r.risk.flagged_keywords))
        = some ["empty", "hopeless"])
    ∧ ("hopeless" ∈ (["empty", "hopeless"] : List String)
        ∧ "empty" ∈ (["empty", "hopeless"] : List String))
    ∧ ((c5Append.1.toOption.map (fun r => r.risk.tier)) = some RiskTier.OK) := by
  refine ⟨?_, ?_, by decide, ?_⟩ <;>
  norm_num +decide [c5Append, c5State0, c5Sid,
    SessionTracker.append_message, SessionTracker.create_session,
    SessionTracker.get_session, SessionTracker.update_buffer,
    SessionTracker.recalculate_metrics, SessionTracker.trend_notes_of,
    SessionTracker.bumpCount, SessionStorage.utc_now,
    SessionStorage.create_session, SessionStorage.get_session,
    SessionStorage.update_session, SessionStorage.list_messages,
    SessionStorage.recent_messages, SessionStorage.insert_message,
    SessionStorage.save_buffer, SessionStorage.upsert_metrics, upsertAssoc,
    RiskClassifier.assess, RiskClassifier.rag_assess,
    RiskClassifier.extract_keywords, RiskClassifier.find_phrases,
    RiskClassifier.find_keywords, RiskClassifier.CRISIS_PHRASES,
    RiskClassifier.HIGH_KEYWORDS, RiskClassifier.CAUTION_KEYWORDS,
    RiskClassifier.apply_adapters, RiskClassifier.suggest_resources,
    RiskClassifier.RESOURCE_MAP, SentimentAnalyzer.score,
    SentimentAnalyzer.scoreLoop, SentimentAnalyzer.scoreStep,
    SentimentAnalyzer.POSITIVE_WORDS, SentimentAnalyzer.NEGATIVE_WORDS,
    SentimentAnalyzer.NEGATIONS, sentiment_band_from_score, strContains,
    containsSub, leadsWith, lowerStr, reFindall, findallAux, isWordChar,
    apostrophe, pySortedSet, sortStrings, insertSorted, charsLt, round3,
    round_eq, riskSeverity, List.range, List.range.loop, defaultTracker,
    emptyStorage, Except.toOption]

/-- C7: the recomputed metrics carry the sustained-risk note exactly when
the history is nonempty and every one of the last (up to) three messages'
tiers is at least CAUTION, and the risk-climbing note exactly when there
are at least two messages and the most recent tier is strictly more severe
than the one before it. -/
theorem C7_trend_notes (cfg : SessionTracker) (st : SessionStorage)
    (sid : String) :
    ("Sustained elevated risk across last three turns."
        ∈ (SessionTracker.recalculate_metrics cfg st sid).1.trend_notes
      ↔ ((st.list_messages sid).map (fun m => m.risk_tier) ≠ []
          ∧ ∀ t ∈ ((st.list_messages sid).map (fun m => m.risk_tier)).drop
              (((st.list_messages sid).map (fun m => m.risk_tier)).length - 3),
              riskSeverity RiskTier.CAUTION ≤ riskSeverity t))
    ∧ ("Risk climbing on most recent turn."
        ∈ (SessionTracker.recalculate_metrics cfg st sid).1.trend_notes
      ↔ (2 ≤ ((st.list_messages sid).map (fun m => m.risk_tier)).length
          ∧ riskSeverity (((st.list_messages sid).map (fun m => m.risk_tier)).getD
              (((st.list_messages sid).map (fun m => m.risk_tier)).length - 2)
              RiskTier.OK)
            < riskSeverity (((st.list_messages sid).map (fun m => m.risk_tier)).getD
              (((st.list_messages sid).map (fun m => m.risk_tier)).length - 1)
              RiskTier.OK))) := by
  rw [SessionTracker.recalculate_metrics_trend_notes_eq]
  exact ⟨SessionTracker.sustained_mem_trend_notes _ _,
    SessionTracker.climbing_mem_trend_notes _ _⟩

/-- C8: `end_session` is idempotent — after a successful call, calling it
again returns the identical summary and storage, and the stored session's
status is ENDED. -/
theorem C8_end_session_idempotent (cfg : SessionTracker) (st : SessionStorage)
    (sid : String)
    (h : (SessionTracker.end_session cfg st sid).1.isOk = true) :
    SessionTracker.end_session cfg (SessionTracker.end_session cfg st sid).2 sid
        = SessionTracker.end_session cfg st sid
    ∧ (((SessionTracker.end_session cfg st sid).2.get_session sid).map
        (fun s => s.status)) = some SessionStatus.ENDED :=
  SessionTracker.end_session_idem_aux cfg st sid h

/-- C8 witness: ending the one-session storage twice. -/
theorem C8_witness :
    ((SessionTracker.end_session defaultTracker oneSessionStorage "s1").1.isOk = true)
    ∧ (SessionTracker.end_session defaultTracker
          (SessionTracker.end_session defaultTracker oneSessionStorage "s1").2 "s1"
        = SessionTracker.end_session defaultTracker oneSessionStorage "s1") := by
  have hok : (SessionTracker.end_session defaultTracker oneSessionStorage "s1").1.isOk
      = true := by
    norm_num +decide [SessionTracker.end_session, SessionTracker.get_summary,
      SessionTracker.get_session, SessionTracker.build_summary,
      SessionTracker.collect_flagged_keywords,
      SessionTracker.recalculate_metrics, SessionTracker.trend_notes_of,
      SessionTracker.bumpCount, SessionStorage.utc_now,
      SessionStorage.get_session, SessionStorage.update_session,
      SessionStorage.list_messages, SessionStorage.recent_messages,
      SessionStorage.upsert_metrics, SessionStorage.get_metrics, upsertAssoc,
      RiskClassifier.suggest_resources, RiskClassifier.RESOURCE_MAP,
      sentiment_band_from_score, pySortedSet, sortStrings, insertSorted,
      charsLt, round3, round_eq, riskSeverity, defaultTracker,
      oneSessionStorage, s1Record]
  exact ⟨hok, (C8_end_session_idempotent defaultTracker oneSessionStorage "s1" hok).1⟩

/-- C9: the recomputed metrics' tier counts have an entry for every tier of
the enum and their values sum to the message count. -/
theorem C9_tier_counts_sum (cfg : SessionTracker) (st : SessionStorage)
    (sid : String) :
    (((SessionTracker.recalculate_metrics cfg st sid).1.tier_counts.map
        Prod.snd).sum
      = (SessionTracker.recalculate_metrics cfg st sid).1.message_count)
    ∧ ∀ t : RiskTier,
        (((SessionTracker.recalculate_metrics cfg st sid).1.tier_counts.lookup
          t).isSome) = true :=
  SessionTracker.recalculate_metrics_tier_counts cfg st sid

/-- C10: whenever `append_message` fails (SessionNotFound or
SessionClosed), the storage — sessions, messages, buffers and metrics — is
returned unchanged: both checks precede every mutation. -/
theorem C10_append_atomic_on_error (cfg : SessionTracker) (st : SessionStorage)
    (sid : String) (sender : SenderRole) (content : String)
    (e : SessionError) (st' : SessionStorage)
    (h : SessionTracker.append_message cfg st sid sender content
      = (Except.error e, st')) :
    st' = st :=
  SessionTracker.append_message_error_state cfg st sid sender content e st' h

/-- C10 witness: appending to a missing session id on the empty storage. -/
theorem C10_witness :
    (SessionTracker.append_message defaultTracker emptyStorage "nope"
        SenderRole.USER "hi"
      = (Except.error (SessionError.notFound
          ("Session \x27nope\x27 not found.")), emptyStorage))
    ∧ ((emptyStorage : SessionStorage) = emptyStorage) := by
  have h : SessionTracker.append_message defaultTracker emptyStorage "nope"
      SenderRole.USER "hi"
      = (Except.error (SessionError.notFound
          ("Session \x27nope\x27 not found.")), emptyStorage) := by rfl
  exact ⟨h, C10_append_atomic_on_error defaultTracker emptyStorage "nope"
    SenderRole.USER "hi" _ emptyStorage h⟩
